import Mathlib

/-!
Verification of the TonyPi pose-mimic servo engine
(`scripts/tonypi_pose_mimic.py`).

The per-frame kinematic mapping and smoothing engine is embedded
shallowly: pixel and calibration arithmetic is modelled exactly over
`ℚ`, the transcendental angle over `ℝ` via `Complex.arg` (the
`atan2` convention), and Python's `int(...)` as truncation toward
zero.  A raised `IndexError` (landmark index absent from the frame)
is modelled by an `Option`-`none` result; the smoothing dictionary
`last_servos` is an insertion-ordered association list, as a Python
dict is.
-/

set_option maxHeartbeats 1000000

/-- A MediaPipe pose landmark: normalized `x`, `y` and relative depth `z`. -/
structure Landmark where
  x : ℚ
  y : ℚ
  z : ℚ
deriving DecidableEq

/-- The `ServoCommand` dataclass. -/
structure ServoCommand where
  servo_id : ℤ
  position : ℤ
  name : String
deriving DecidableEq

/-- Servo limit `SERVO_MIN = 125`. -/
def SERVO_MIN : ℤ := 125

/-- Servo limit `SERVO_MAX = 875`. -/
def SERVO_MAX : ℤ := 875

/-- `SMOOTHING_THRESHOLD = 25`. -/
def SMOOTHING_THRESHOLD : ℤ := 25

/-- Python `int(...)` applied to an exact rational: truncation toward zero. -/
def truncQ (q : ℚ) : ℤ := if 0 ≤ q then ⌊q⌋ else ⌈q⌉

/-- Python `int(...)` applied to an exact real: truncation toward zero. -/
noncomputable def truncR (r : ℝ) : ℤ := if 0 ≤ r then ⌊r⌋ else ⌈r⌉

/-- `np.clip(·, -1.0, 1.0)`. -/
noncomputable def clip (x : ℝ) : ℝ := max (-1) (min 1 x)

/-- `np.arctan2 y x`, as the argument of the complex number `x + y*i`;
`Complex.arg` lands in `(-π, π]`, exactly the `atan2` convention. -/
noncomputable def atan2 (y x : ℝ) : ℝ := Complex.arg ⟨x, y⟩

/-- `np.degrees`. -/
noncomputable def degrees (r : ℝ) : ℝ := r * (180 / Real.pi)

/-- `val_map`: affine range mapping, deliberately without clamping. -/
def val_map (x in_min in_max out_min out_max : ℚ) : ℚ :=
  (x - in_min) * (out_max - out_min) / (in_max - in_min) + out_min

open Classical in
/-- `vector_2d_angle`: signed angle in whole degrees between two 2D pixel
(integer) vectors.  `none` models Python's `None` return when the product
`d` of the two norms is zero. -/
noncomputable def vector_2d_angle (v1 v2 : ℤ × ℤ) : Option ℤ :=
  let d : ℝ := Real.sqrt ((v1.1 : ℝ) ^ 2 + (v1.2 : ℝ) ^ 2) *
    Real.sqrt ((v2.1 : ℝ) ^ 2 + (v2.2 : ℝ) ^ 2)
  if d = 0 then none
  else
    some (truncR (degrees (atan2
      (clip (((v1.1 * v2.2 - v1.2 * v2.1 : ℤ) : ℝ) / d))
      (clip (((v1.1 * v2.1 + v1.2 * v2.2 : ℤ) : ℝ) / d)))))

/-- `clamp_servo` with its default bounds `125`, `875` (every call site in
the engine uses the defaults). -/
def clamp_servo (value : ℤ) : ℤ := max 125 (min 875 value)

/-- The `last_servos` dictionary: an insertion-ordered association list. -/
abbrev ServoState := List (ℤ × ℤ)

/-- Python dict update `d[k] = v`: replace in place, or append a new key. -/
def dictSet (s : ServoState) (k v : ℤ) : ServoState :=
  match s.lookup k with
  | some _ => s.map fun p => if p.1 = k then (k, v) else p
  | none => s ++ [(k, v)]

/-- `smooth_servo`: deadband filter over the `last_servos` state. -/
def smooth_servo (s : ServoState) (servo_id new_value : ℤ) : ℤ × ServoState :=
  match s.lookup servo_id with
  | some last =>
      if |last - new_value| < SMOOTHING_THRESHOLD then (last, s)
      else (new_value, dictSet s servo_id new_value)
  | none => (new_value, dictSet s servo_id new_value)

/-- Pixel coordinates of one landmark (`[int(lm.x*width), int(lm.y*height)]`). -/
def pixel (lm : Landmark) (width height : ℤ) : ℤ × ℤ :=
  (truncQ (lm.x * (width : ℚ)), truncQ (lm.y * (height : ℚ)))

/-- `get_point`: pixel coordinates of landmark `idx`; `none` models the
`IndexError` raised when the index is absent from the frame. -/
def get_point (landmarks : List Landmark) (idx : ℕ) (width height : ℤ) :
    Option (ℤ × ℤ) :=
  match landmarks.get? idx with
  | some lm => some (pixel lm width height)
  | none => none

/-- Componentwise subtraction of pixel vectors (`np.array a - np.array b`). -/
def vsub (a b : ℤ × ℤ) : ℤ × ℤ := (a.1 - b.1, a.2 - b.2)

/-- The emission half of `calculate_arm_servos`: the four arm commands
are emitted, each clamped then smoothed in sequence, only when all four
angles are defined (`if all(a is not None ...)`); otherwise no arm
command is produced. -/
def armEmit (s : ServoState)
    (left_shoulder_angle left_elbow_angle right_shoulder_angle right_elbow_angle :
      Option ℤ) : Option (List ServoCommand) × ServoState :=
  match left_shoulder_angle, left_elbow_angle, right_shoulder_angle, right_elbow_angle with
  | some lsa, some lea, some rsa, some rea =>
    let servo15 := clamp_servo (truncQ (val_map (lsa : ℚ) (-90) 90 (SERVO_MIN : ℚ) (SERVO_MAX : ℚ)))
    let r15 := smooth_servo s 15 servo15
    let servo14 := clamp_servo (truncQ (val_map (lea : ℚ) (-90) 90 (SERVO_MIN : ℚ) (SERVO_MAX : ℚ)))
    let r14 := smooth_servo r15.2 14 servo14
    let servo7 := clamp_servo (truncQ (val_map (rsa : ℚ) (-90) 90 (SERVO_MIN : ℚ) (SERVO_MAX : ℚ)))
    let r7 := smooth_servo r14.2 7 servo7
    let servo6 := clamp_servo (truncQ (val_map (rea : ℚ) (-90) 90 (SERVO_MIN : ℚ) (SERVO_MAX : ℚ)))
    let r6 := smooth_servo r7.2 6 servo6
    (some [⟨15, r15.1, "R_shoulder_side"⟩, ⟨14, r14.1, "R_elbow"⟩,
      ⟨7, r7.1, "L_shoulder_side"⟩, ⟨6, r6.1, "L_elbow"⟩], r6.2)
  | _, _, _, _ => (some [], s)

/-- `calculate_arm_servos` (shoulders side, elbows); `(none, s)` models a
raised `IndexError` on a missing landmark. -/
noncomputable def calculate_arm_servos (landmarks : List Landmark)
    (width height : ℤ) (s : ServoState) :
    Option (List ServoCommand) × ServoState :=
  match get_point landmarks 11 width height with
  | none => (none, s)
  | some left_shoulder =>
  match get_point landmarks 12 width height with
  | none => (none, s)
  | some right_shoulder =>
  match get_point landmarks 13 width height with
  | none => (none, s)
  | some left_elbow =>
  match get_point landmarks 14 width height with
  | none => (none, s)
  | some right_elbow =>
  match get_point landmarks 15 width height with
  | none => (none, s)
  | some left_wrist =>
  match get_point landmarks 16 width height with
  | none => (none, s)
  | some right_wrist =>
    let left_ref : ℤ × ℤ := (width, left_shoulder.2)
    let right_ref : ℤ × ℤ := (0, right_shoulder.2)
    let left_shoulder_angle :=
      vector_2d_angle (vsub left_shoulder left_ref) (vsub left_shoulder left_elbow)
    let left_elbow_angle :=
      vector_2d_angle (vsub left_elbow left_shoulder) (vsub left_wrist left_elbow)
    let right_shoulder_angle :=
      vector_2d_angle (vsub right_shoulder right_ref) (vsub right_shoulder right_elbow)
    let right_elbow_angle :=
      vector_2d_angle (vsub right_elbow right_shoulder) (vsub right_wrist right_elbow)
    armEmit s left_shoulder_angle left_elbow_angle right_shoulder_angle right_elbow_angle

/-- The emission half of `calculate_shoulder_forward_servos`: both
commands are produced unconditionally from the two depth differences. -/
def fwdEmit (s : ServoState) (left_z_diff right_z_diff : ℚ) :
    Option (List ServoCommand) × ServoState :=
  let servo16 := clamp_servo (truncQ (val_map left_z_diff (-(3/10)) (3/10) 500 125))
  let r16 := smooth_servo s 16 servo16
  let servo8 := clamp_servo (truncQ (val_map right_z_diff (-(3/10)) (3/10) 500 900))
  let r8 := smooth_servo r16.2 8 servo8
  (some [⟨16, r16.1, "R_shoulder_fwd"⟩, ⟨8, r8.1, "L_shoulder_fwd"⟩], r8.2)

/-- `calculate_shoulder_forward_servos`: forward shoulder rotation from
wrist/shoulder depth differences (never `None`-guarded in the source). -/
def calculate_shoulder_forward_servos (landmarks : List Landmark)
    (width height : ℤ) (s : ServoState) :
    Option (List ServoCommand) × ServoState :=
  match landmarks.get? 11 with
  | none => (none, s)
  | some left_shoulder =>
  match landmarks.get? 12 with
  | none => (none, s)
  | some right_shoulder =>
  match landmarks.get? 15 with
  | none => (none, s)
  | some left_wrist =>
  match landmarks.get? 16 with
  | none => (none, s)
  | some right_wrist =>
    let left_z_diff := left_shoulder.z - left_wrist.z
    let right_z_diff := right_shoulder.z - right_wrist.z
    fwdEmit s left_z_diff right_z_diff

/-- The emission half of `calculate_hip_servos`: the two side commands
are per-joint angle-guarded, the two front commands unconditional. -/
def hipEmit (s : ServoState)
    (left_hip_side_angle right_hip_side_angle : Option ℤ)
    (left_hip_z right_hip_z : ℚ) : Option (List ServoCommand) × ServoState :=
  let r4 : List ServoCommand × ServoState :=
    match left_hip_side_angle with
    | some a =>
      let servo4 := clamp_servo (truncQ (val_map (a : ℚ) (-45) 45 450 750))
      let r := smooth_servo s 4 servo4
      ([⟨4, r.1, "R_hip_side"⟩], r.2)
    | none => ([], s)
  let r12 : List ServoCommand × ServoState :=
    match right_hip_side_angle with
    | some a =>
      let servo12 := clamp_servo (truncQ (val_map (a : ℚ) (-45) 45 250 550))
      let r := smooth_servo r4.2 12 servo12
      ([⟨12, r.1, "L_hip_side"⟩], r.2)
    | none => ([], r4.2)
  let servo3 := clamp_servo (truncQ (val_map left_hip_z (-(1/5)) (1/5) 700 300))
  let r3 := smooth_servo r12.2 3 servo3
  let servo11 := clamp_servo (truncQ (val_map right_hip_z (-(1/5)) (1/5) 300 700))
  let r11 := smooth_servo r3.2 11 servo11
  (some (r4.1 ++ r12.1 ++ [⟨3, r3.1, "R_hip_front"⟩, ⟨11, r11.1, "L_hip_front"⟩]), r11.2)

/-- `calculate_hip_servos`: hip side lean (angle-guarded, per joint) and
hip front/back from depth differences (unguarded).  The source refetches
`landmarks[23..26]` for the depth part; the indices were already fetched
for the pixel part, so one fetch is value- and failure-equivalent. -/
noncomputable def calculate_hip_servos (landmarks : List Landmark)
    (width height : ℤ) (s : ServoState) :
    Option (List ServoCommand) × ServoState :=
  match landmarks.get? 23 with
  | none => (none, s)
  | some left_hip_lm =>
  match landmarks.get? 24 with
  | none => (none, s)
  | some right_hip_lm =>
  match landmarks.get? 25 with
  | none => (none, s)
  | some left_knee_lm =>
  match landmarks.get? 26 with
  | none => (none, s)
  | some right_knee_lm =>
    let left_hip := pixel left_hip_lm width height
    let right_hip := pixel right_hip_lm width height
    let left_knee := pixel left_knee_lm width height
    let right_knee := pixel right_knee_lm width height
    let left_hip_ref : ℤ × ℤ := (left_hip.1, left_hip.2 + 100)
    let right_hip_ref : ℤ × ℤ := (right_hip.1, right_hip.2 + 100)
    let left_hip_side_angle :=
      vector_2d_angle (vsub left_hip left_hip_ref) (vsub left_hip left_knee)
    let right_hip_side_angle :=
      vector_2d_angle (vsub right_hip right_hip_ref) (vsub right_hip right_knee)
    let left_hip_z := left_hip_lm.z - left_knee_lm.z
    let right_hip_z := right_hip_lm.z - right_knee_lm.z
    hipEmit s left_hip_side_angle right_hip_side_angle left_hip_z right_hip_z

/-- The emission half of `calculate_knee_servos`: both commands are
per-joint angle-guarded and use the absolute angle. -/
def kneeEmit (s : ServoState)
    (left_knee_angle right_knee_angle : Option ℤ) :
    Option (List ServoCommand) × ServoState :=
  let r2 : List ServoCommand × ServoState :=
    match left_knee_angle with
    | some a =>
      let servo2 := clamp_servo (truncQ (val_map ((|a| : ℤ) : ℚ) 90 180 150 390))
      let r := smooth_servo s 2 servo2
      ([⟨2, r.1, "R_knee"⟩], r.2)
    | none => ([], s)
  let r10 : List ServoCommand × ServoState :=
    match right_knee_angle with
    | some a =>
      let servo10 := clamp_servo (truncQ (val_map ((|a| : ℤ) : ℚ) 90 180 850 610))
      let r := smooth_servo r2.2 10 servo10
      ([⟨10, r.1, "L_knee"⟩], r.2)
    | none => ([], r2.2)
  (some (r2.1 ++ r10.1), r10.2)

/-- `calculate_knee_servos`: knee flexion from the absolute knee angle,
guarded per joint. -/
noncomputable def calculate_knee_servos (landmarks : List Landmark)
    (width height : ℤ) (s : ServoState) :
    Option (List ServoCommand) × ServoState :=
  match get_point landmarks 23 width height with
  | none => (none, s)
  | some left_hip =>
  match get_point landmarks 24 width height with
  | none => (none, s)
  | some right_hip =>
  match get_point landmarks 25 width height with
  | none => (none, s)
  | some left_knee =>
  match get_point landmarks 26 width height with
  | none => (none, s)
  | some right_knee =>
  match get_point landmarks 27 width height with
  | none => (none, s)
  | some left_ankle =>
  match get_point landmarks 28 width height with
  | none => (none, s)
  | some right_ankle =>
    let left_knee_angle :=
      vector_2d_angle (vsub left_hip left_knee) (vsub left_ankle left_knee)
    let right_knee_angle :=
      vector_2d_angle (vsub right_hip right_knee) (vsub right_ankle right_knee)
    kneeEmit s left_knee_angle right_knee_angle

/-- `calculate_servo_commands`: the per-frame pipeline.  The outer
`Option` models a raised exception; the inner `Option` models the
source's `return commands if commands else None`. -/
noncomputable def calculate_servo_commands (full_body : Bool)
    (landmarks : List Landmark) (width height : ℤ) (s : ServoState) :
    Option (Option (List ServoCommand)) × ServoState :=
  match calculate_arm_servos landmarks width height s with
  | (none, s1) => (none, s1)
  | (some c1, s1) =>
    match calculate_shoulder_forward_servos landmarks width height s1 with
    | (none, s2) => (none, s2)
    | (some c2, s2) =>
      if full_body then
        match calculate_hip_servos landmarks width height s2 with
        | (none, s3) => (none, s3)
        | (some c3, s3) =>
          match calculate_knee_servos landmarks width height s3 with
          | (none, s4) => (none, s4)
          | (some c4, s4) =>
            let commands := c1 ++ c2 ++ c3 ++ c4
            (some (if commands.isEmpty then none else some commands), s4)
      else
        let commands := c1 ++ c2
        (some (if commands.isEmpty then none else some commands), s2)

/-- A whole session: frames (each with its own mode, landmarks and frame
size) processed in order from a state; a raised exception ends the run,
as it would crash the source's loop. -/
noncomputable def runSession :
    List (Bool × List Landmark × ℤ × ℤ) → ServoState →
      List ServoCommand × ServoState
  | [], s => ([], s)
  | (fb, lm, w, h) :: rest, s =>
    match calculate_servo_commands fb lm w h s with
    | (none, s1) => ([], s1)
    | (some r, s1) =>
      let rest' := runSession rest s1
      (r.getD [] ++ rest'.1, rest'.2)

/-- The command actually present for an actuator in a frame result. -/
def findCmd (id : ℤ) (r : Option (Option (List ServoCommand))) :
    Option ServoCommand :=
  match r with
  | some (some l) => l.find? fun c => c.servo_id == id
  | _ => none

/-- The command list of a frame result (empty on exception or no pose). -/
def outList (r : Option (Option (List ServoCommand))) : List ServoCommand :=
  match r with
  | some (some l) => l
  | _ => []

/-- The actuator ids tracked by each mode, in emission order, read off the
engine's emission sites. -/
def trackedIds (full_body : Bool) : List ℤ :=
  if full_body then [15, 14, 7, 6, 16, 8, 4, 12, 3, 11, 2, 10]
  else [15, 14, 7, 6, 16, 8]

/-- Position within the servo safety bounds. -/
def posOK (p : ℤ) : Bool := decide (SERVO_MIN ≤ p ∧ p ≤ SERVO_MAX)

/-- All commands of a list within bounds. -/
def cmdsOK (l : List ServoCommand) : Bool := l.all fun c => posOK c.position

/-- All values stored in a smoothing state within bounds. -/
def stateOK (s : ServoState) : Bool := s.all fun kv => posOK kv.2

/-! ### Basic facts about the smoothing state -/

lemma lookup_map_replace_ne {k k' v : ℤ} (hne : k' ≠ k) (s : ServoState) :
    (s.map fun p => if p.1 = k then (k, v) else p).lookup k' = s.lookup k' := by
  induction s with
  | nil => rfl
  | cons p t ih =>
    obtain ⟨a, b⟩ := p
    by_cases hak : a = k
    · subst hak
      have hba : (k' == a) = false := by simp [hne]
      simp [List.lookup_cons, hba, ih]
    · simp only [List.map_cons, if_neg hak, List.lookup_cons]
      cases h : (k' == a) <;> simp [ih]

lemma lookup_map_replace_self {k v : ℤ} (s : ServoState)
    (h : (s.lookup k).isSome) :
    (s.map fun p => if p.1 = k then (k, v) else p).lookup k = some v := by
  induction s with
  | nil => simp at h
  | cons p t ih =>
    obtain ⟨a, b⟩ := p
    by_cases hak : a = k
    · subst hak
      simp [List.lookup_cons]
    · have hka : (k == a) = false := by simp [Ne.symm hak]
      simp only [List.lookup_cons, hka] at h
      simp only [List.map_cons, if_neg hak, List.lookup_cons, hka]
      exact ih h

lemma lookup_dictSet_self (s : ServoState) (k v : ℤ) :
    (dictSet s k v).lookup k = some v := by
  unfold dictSet
  cases h : s.lookup k with
  | none => rw [List.lookup_append, h]; simp
  | some w => exact lookup_map_replace_self s (by simp [h])

lemma lookup_dictSet_ne (s : ServoState) {k k' : ℤ} (v : ℤ) (hne : k' ≠ k) :
    (dictSet s k v).lookup k' = s.lookup k' := by
  unfold dictSet
  cases h : s.lookup k with
  | none =>
    rw [List.lookup_append]
    have : ([(k, v)] : ServoState).lookup k' = none := by simp [hne]
    simp [this]
  | some w => exact lookup_map_replace_ne hne s

lemma smooth_lookup_self (s : ServoState) (k v : ℤ) :
    ((smooth_servo s k v).2).lookup k = some ((smooth_servo s k v).1) := by
  unfold smooth_servo
  cases h : s.lookup k with
  | none => simpa using lookup_dictSet_self s k v
  | some last =>
    by_cases hlt : |last - v| < SMOOTHING_THRESHOLD
    · simp [hlt, h]
    · simpa [hlt] using lookup_dictSet_self s k v

lemma smooth_lookup_ne (s : ServoState) {k k' : ℤ} (v : ℤ) (hne : k' ≠ k) :
    ((smooth_servo s k v).2).lookup k' = s.lookup k' := by
  unfold smooth_servo
  cases h : s.lookup k with
  | none => simpa using lookup_dictSet_ne s v hne
  | some last =>
    by_cases hlt : |last - v| < SMOOTHING_THRESHOLD
    · simp [hlt]
    · simpa [hlt] using lookup_dictSet_ne s v hne

lemma smooth_fst_congr {s t : ServoState} (k v : ℤ)
    (h : s.lookup k = t.lookup k) :
    (smooth_servo s k v).1 = (smooth_servo t k v).1 := by
  unfold smooth_servo
  rw [h]
  cases t.lookup k with
  | none => rfl
  | some last => by_cases hlt : |last - v| < SMOOTHING_THRESHOLD <;> simp [hlt]

lemma smooth_stable {s t : ServoState} (k v : ℤ)
    (h : t.lookup k = ((smooth_servo s k v).2).lookup k) :
    smooth_servo t k v = ((smooth_servo s k v).1, t) := by
  have hself := smooth_lookup_self s k v
  rw [← h] at hself
  unfold smooth_servo at hself ⊢
  cases hs : s.lookup k with
  | none =>
    simp only [hs] at hself ⊢
    rw [hself]
    simp [SMOOTHING_THRESHOLD]
  | some last =>
    by_cases hlt : |last - v| < SMOOTHING_THRESHOLD
    · simp only [hs, if_pos hlt] at hself ⊢
      rw [hself]
      simp [hlt]
    · simp only [hs, if_neg hlt] at hself ⊢
      rw [hself]
      simp [SMOOTHING_THRESHOLD]

/-! ### Bounds facts -/

lemma posOK_clamp (x : ℤ) : posOK (clamp_servo x) = true := by
  simp only [posOK, clamp_servo, SERVO_MIN, SERVO_MAX, decide_eq_true_eq]
  omega

lemma lookup_posOK {s : ServoState} (hs : stateOK s = true) {k v : ℤ}
    (h : s.lookup k = some v) : posOK v = true := by
  induction s with
  | nil => simp at h
  | cons p t ih =>
    obtain ⟨a, b⟩ := p
    simp only [stateOK, List.all_cons, Bool.and_eq_true] at hs
    simp only [List.lookup_cons] at h
    cases hab : (k == a) with
    | true => rw [hab] at h; cases h; exact hs.1
    | false =>
      rw [hab] at h
      exact ih (by simpa [stateOK] using hs.2) h

lemma stateOK_dictSet {s : ServoState} (hs : stateOK s = true) {k v : ℤ}
    (hv : posOK v = true) : stateOK (dictSet s k v) = true := by
  unfold dictSet
  cases h : s.lookup k with
  | none =>
    simp only [stateOK, List.all_append, Bool.and_eq_true]
    exact ⟨hs, by simp [hv]⟩
  | some w =>
    simp only [stateOK, List.all_map]
    simp only [stateOK] at hs
    rw [List.all_eq_true] at hs ⊢
    intro p hp
    by_cases hpk : p.1 = k
    · simp [Function.comp, hpk, hv]
    · simpa [Function.comp, hpk] using hs p hp

lemma smooth_step {s : ServoState} (hs : stateOK s = true) {k v : ℤ}
    (hv : posOK v = true) :
    posOK (smooth_servo s k v).1 = true ∧ stateOK (smooth_servo s k v).2 = true := by
  unfold smooth_servo
  cases h : s.lookup k with
  | none => exact ⟨hv, stateOK_dictSet hs hv⟩
  | some last =>
    by_cases hlt : |last - v| < SMOOTHING_THRESHOLD
    · simp only [if_pos hlt]
      exact ⟨lookup_posOK hs h, hs⟩
    · simp only [if_neg hlt]
      exact ⟨hv, stateOK_dictSet hs hv⟩

/-! ### Facts about `vector_2d_angle` -/

lemma normSq_eq_zero_iff (v : ℤ × ℤ) :
    ((v.1 : ℝ) ^ 2 + (v.2 : ℝ) ^ 2 = 0) ↔ v = (0, 0) := by
  obtain ⟨a, b⟩ := v
  simp only [Prod.mk.injEq]
  constructor
  · intro h
    have h1 : (a : ℝ) = 0 := by nlinarith [sq_nonneg (a : ℝ), sq_nonneg (b : ℝ)]
    have h2 : (b : ℝ) = 0 := by nlinarith [sq_nonneg (a : ℝ), sq_nonneg (b : ℝ)]
    exact ⟨by exact_mod_cast h1, by exact_mod_cast h2⟩
  · rintro ⟨rfl, rfl⟩
    norm_num

lemma vector_2d_angle_eq_none_iff (v1 v2 : ℤ × ℤ) :
    vector_2d_angle v1 v2 = none ↔ v1 = (0, 0) ∨ v2 = (0, 0) := by
  have nn1 : (0 : ℝ) ≤ (v1.1 : ℝ) ^ 2 + (v1.2 : ℝ) ^ 2 := by positivity
  have nn2 : (0 : ℝ) ≤ (v2.1 : ℝ) ^ 2 + (v2.2 : ℝ) ^ 2 := by positivity
  have hd : (Real.sqrt ((v1.1 : ℝ) ^ 2 + (v1.2 : ℝ) ^ 2) *
      Real.sqrt ((v2.1 : ℝ) ^ 2 + (v2.2 : ℝ) ^ 2) = 0) ↔
      (v1 = (0, 0) ∨ v2 = (0, 0)) := by
    rw [mul_eq_zero, Real.sqrt_eq_zero', Real.sqrt_eq_zero',
      ← normSq_eq_zero_iff v1, ← normSq_eq_zero_iff v2]
    constructor
    · rintro (h | h)
      · exact Or.inl (le_antisymm h nn1)
      · exact Or.inr (le_antisymm h nn2)
    · rintro (h | h)
      · exact Or.inl h.le
      · exact Or.inr h.le
  unfold vector_2d_angle
  dsimp only
  split
  · next h => exact iff_of_true rfl (hd.mp h)
  · next h => exact iff_of_false (Option.some_ne_none _) fun hc => h (hd.mpr hc)

lemma vector_2d_angle_eq_arg (v1 v2 : ℤ × ℤ) (h1 : v1 ≠ (0, 0)) (h2 : v2 ≠ (0, 0)) :
    vector_2d_angle v1 v2 = some (truncR (degrees (Complex.arg
      ⟨((v1.1 * v2.1 + v1.2 * v2.2 : ℤ) : ℝ),
        ((v1.1 * v2.2 - v1.2 * v2.1 : ℤ) : ℝ)⟩))) := by
  unfold vector_2d_angle
  dsimp only
  have p1 : (0 : ℝ) < (v1.1 : ℝ) ^ 2 + (v1.2 : ℝ) ^ 2 := by
    rcases lt_or_eq_of_le (by positivity : (0 : ℝ) ≤ (v1.1 : ℝ) ^ 2 + (v1.2 : ℝ) ^ 2) with h | h
    · exact h
    · exact absurd ((normSq_eq_zero_iff v1).mp h.symm) h1
  have p2 : (0 : ℝ) < (v2.1 : ℝ) ^ 2 + (v2.2 : ℝ) ^ 2 := by
    rcases lt_or_eq_of_le (by positivity : (0 : ℝ) ≤ (v2.1 : ℝ) ^ 2 + (v2.2 : ℝ) ^ 2) with h | h
    · exact h
    · exact absurd ((normSq_eq_zero_iff v2).mp h.symm) h2
  have hdpos : 0 < Real.sqrt ((v1.1 : ℝ) ^ 2 + (v1.2 : ℝ) ^ 2) *
      Real.sqrt ((v2.1 : ℝ) ^ 2 + (v2.2 : ℝ) ^ 2) :=
    mul_pos (Real.sqrt_pos.mpr p1) (Real.sqrt_pos.mpr p2)
  rw [if_neg hdpos.ne']
  set d := Real.sqrt ((v1.1 : ℝ) ^ 2 + (v1.2 : ℝ) ^ 2) *
      Real.sqrt ((v2.1 : ℝ) ^ 2 + (v2.2 : ℝ) ^ 2) with hdset
  set dot := ((v1.1 * v2.1 + v1.2 * v2.2 : ℤ) : ℝ) with hdot_def
  set cross := ((v1.1 * v2.2 - v1.2 * v2.1 : ℤ) : ℝ) with hcross_def
  have hd2 : d ^ 2 = ((v1.1 : ℝ) ^ 2 + (v1.2 : ℝ) ^ 2) * ((v2.1 : ℝ) ^ 2 + (v2.2 : ℝ) ^ 2) := by
    rw [hdset, mul_pow, Real.sq_sqrt p1.le, Real.sq_sqrt p2.le]
  have lagrange : dot ^ 2 + cross ^ 2 = d ^ 2 := by
    rw [hd2, hdot_def, hcross_def]
    push_cast
    ring
  have hdot : |dot| ≤ d := by
    nlinarith [sq_abs dot, abs_nonneg dot, sq_nonneg cross, hdpos]
  have hcross : |cross| ≤ d := by
    nlinarith [sq_abs cross, abs_nonneg cross, sq_nonneg dot, hdpos]
  have clip_of_abs_le : ∀ x : ℝ, |x| ≤ d → clip (x / d) = x / d := by
    intro x hx
    unfold clip
    have hle : x / d ≤ 1 := by
      rw [div_le_one hdpos]
      exact le_trans (le_abs_self x) hx
    have hge : -1 ≤ x / d := by
      rw [le_div_iff hdpos, neg_one_mul]
      have := neg_abs_le x
      linarith [abs_le.mp hx]
    rw [min_eq_right hle, max_eq_right hge]
  rw [clip_of_abs_le cross hcross, clip_of_abs_le dot hdot]
  unfold atan2
  have hmk : ((d : ℝ) : ℂ) * ⟨dot / d, cross / d⟩ = ⟨dot, cross⟩ := by
    apply Complex.ext
    · simp only [Complex.mul_re, Complex.ofReal_re, Complex.ofReal_im]
      field_simp
    · simp only [Complex.mul_im, Complex.ofReal_re, Complex.ofReal_im]
      field_simp
  congr 2
  rw [← hmk, Complex.arg_real_mul _ hdpos]

lemma vector_2d_angle_isSome (v1 v2 : ℤ × ℤ) (h1 : v1 ≠ (0, 0)) (h2 : v2 ≠ (0, 0)) :
    ∃ z, vector_2d_angle v1 v2 = some z :=
  ⟨_, vector_2d_angle_eq_arg v1 v2 h1 h2⟩

lemma truncR_bounds {x : ℝ} (hl : -180 < x) (hu : x ≤ 180) :
    -180 < truncR x ∧ truncR x ≤ 180 := by
  unfold truncR
  split
  · next h =>
    have h0 : (0 : ℤ) ≤ ⌊x⌋ := Int.floor_nonneg.mpr h
    have h180 : ⌊x⌋ ≤ ⌊(180 : ℝ)⌋ := Int.floor_mono hu
    have e : ⌊(180 : ℝ)⌋ = 180 := by
      rw [show (180 : ℝ) = ((180 : ℤ) : ℝ) by norm_num, Int.floor_intCast]
    omega
  · next h =>
    push_neg at h
    have hup : ⌈x⌉ ≤ 0 := Int.ceil_le.mpr (by exact_mod_cast h.le)
    have hlow : (-180 : ℤ) < ⌈x⌉ := Int.lt_ceil.mpr (by exact_mod_cast hl)
    omega

lemma degrees_arg_bounds (z : ℂ) :
    -180 < degrees (Complex.arg z) ∧ degrees (Complex.arg z) ≤ 180 := by
  have h1 : -Real.pi < Complex.arg z := Complex.neg_pi_lt_arg z
  have h2 : Complex.arg z ≤ Real.pi := Complex.arg_le_pi z
  have hfac : (0 : ℝ) < 180 / Real.pi := by positivity
  unfold degrees
  constructor
  · have hmul := mul_lt_mul_of_pos_right h1 hfac
    have e : -Real.pi * (180 / Real.pi) = -180 := by
      field_simp
      ring
    linarith
  · have hmul := mul_le_mul_of_nonneg_right h2 hfac.le
    have e : Real.pi * (180 / Real.pi) = 180 := by
      field_simp
    linarith

lemma vector_2d_angle_mem_Ioc (v1 v2 : ℤ × ℤ) (z : ℤ)
    (h : vector_2d_angle v1 v2 = some z) : -180 < z ∧ z ≤ 180 := by
  unfold vector_2d_angle at h
  dsimp only at h
  split at h
  · exact (Option.noConfusion h)
  · have hz := (Option.some.inj h).symm
    subst hz
    unfold atan2
    exact truncR_bounds (degrees_arg_bounds _).1 (degrees_arg_bounds _).2

/-! ### Claim C8: `vector_2d_angle` contract -/

/-- C8: `vector_2d_angle` never raises (it is total); it returns `none`
exactly when one input vector has zero magnitude, and otherwise an integer
number of degrees in `(-180, 180]` following the `atan2(cross, dot)`
convention; `angle((1,0),(0,1)) = 90` and `angle((0,0),(1,1))` is
undefined. -/
theorem c8_vector_angle :
    (∀ v1 v2 : ℤ × ℤ, vector_2d_angle v1 v2 = none ↔ v1 = (0, 0) ∨ v2 = (0, 0))
    ∧ (∀ (v1 v2 : ℤ × ℤ) (z : ℤ), vector_2d_angle v1 v2 = some z →
        -180 < z ∧ z ≤ 180)
    ∧ vector_2d_angle (1, 0) (0, 1) = some 90
    ∧ vector_2d_angle (0, 0) (1, 1) = none := by
  refine ⟨vector_2d_angle_eq_none_iff, vector_2d_angle_mem_Ioc, ?_, ?_⟩
  · rw [vector_2d_angle_eq_arg (1, 0) (0, 1) (by decide) (by decide)]
    norm_num
    have hI : (⟨(0 : ℝ), (1 : ℝ)⟩ : ℂ) = Complex.I := rfl
    rw [hI, Complex.arg_I]
    have h90 : degrees (Real.pi / 2) = 90 := by
      unfold degrees
      field_simp
      ring
    rw [h90]
    unfold truncR
    rw [if_pos (by norm_num : (0 : ℝ) ≤ 90)]
    rw [show (90 : ℝ) = ((90 : ℤ) : ℝ) by norm_num, Int.floor_intCast]
  · exact (vector_2d_angle_eq_none_iff _ _).mpr (Or.inl rfl)

/-- C8 witness: the range bound instantiated at the concrete angle
`angle((1,0),(0,1)) = 90`. -/
theorem c8_vector_angle_witness : (-180 : ℤ) < 90 ∧ (90 : ℤ) ≤ 180 :=
  c8_vector_angle.2.1 (1, 0) (0, 1) 90 c8_vector_angle.2.2.1

/-! ### Claim C9: `val_map` contract -/

/-- C9: `val_map` is the exact affine interpolation with no clamping:
it maps `in_min` to `out_min` and `in_max` to `out_max`, inputs outside
the range extrapolate linearly beyond the output range (e.g. `270` in a
`(-90, 90) → (125, 875)` calibration lands at `1625 > 875`), and
`val_map 0 (-90) 90 125 875 = 500`. -/
theorem c9_val_map :
    (∀ x a b c d : ℚ, a ≠ b →
      val_map x a b c d = (x - a) * (d - c) / (b - a) + c)
    ∧ (∀ a b c d : ℚ, a ≠ b → val_map a a b c d = c ∧ val_map b a b c d = d)
    ∧ val_map 0 (-90) 90 125 875 = 500
    ∧ val_map 270 (-90) 90 125 875 = 1625 := by
  refine ⟨fun x a b c d _ => rfl, fun a b c d hab => ⟨?_, ?_⟩, by
    norm_num [val_map], by norm_num [val_map]⟩
  · simp [val_map]
  · have hba : b - a ≠ 0 := sub_ne_zero.mpr (Ne.symm hab)
    field_simp [val_map]

/-- C9 witness: the endpoint law instantiated at the arm calibration
`(-90, 90) → (125, 875)`. -/
theorem c9_val_map_witness :
    val_map (-90) (-90) 90 125 875 = 125 ∧ val_map 90 (-90) 90 125 875 = 875 :=
  c9_val_map.2.1 (-90) 90 125 875 (by norm_num)

/-! ### Claim C4: smoothing law -/

/-- C4: the deadband law of `smooth_servo`: a stored previous position is
re-emitted (and kept) whenever the candidate is within the threshold; a
first observation is accepted unconditionally; with `threshold = 25` and
`previous = 500`, candidate `510` re-emits `500`, while candidate `530`
is emitted and the stored previous becomes `530`. -/
theorem c4_smoothing_law :
    (∀ (s : ServoState) (servo_id P v : ℤ), s.lookup servo_id = some P →
      |P - v| < SMOOTHING_THRESHOLD → smooth_servo s servo_id v = (P, s))
    ∧ (∀ (s : ServoState) (servo_id v : ℤ), s.lookup servo_id = none →
      smooth_servo s servo_id v = (v, dictSet s servo_id v))
    ∧ smooth_servo [(5, 500)] 5 510 = (500, [(5, 500)])
    ∧ smooth_servo [(5, 500)] 5 530 = (530, [(5, 530)]) := by
  refine ⟨fun s servo_id P v hP hlt => ?_, fun s servo_id v hnone => ?_,
    by decide, by decide⟩
  · unfold smooth_servo
    rw [hP]
    simp [hlt]
  · unfold smooth_servo
    rw [hnone]

/-- C4 witness: the general deadband law instantiated at the spec's own
example (`previous = 500`, `candidate = 510`, threshold `25`). -/
theorem c4_smoothing_law_witness :
    List.lookup 5 [((5 : ℤ), (500 : ℤ))] = some 500
    ∧ |(500 : ℤ) - 510| < SMOOTHING_THRESHOLD
    ∧ smooth_servo [(5, 500)] 5 510 = (500, [(5, 500)]) :=
  ⟨by decide, by decide, c4_smoothing_law.1 [(5, 500)] 5 500 510 (by decide) (by decide)⟩

/-! ### Fetch-level facts: failure and reduction to the emit halves -/

lemma get?_some_of_lt {α : Type} (l : List α) (i : ℕ) (h : i < l.length) :
    ∃ x, l.get? i = some x := by
  cases hg : l.get? i with
  | none => rw [List.get?_eq_none] at hg; omega
  | some x => exact ⟨x, rfl⟩

lemma get_point_eq_some {lm : List Landmark} {i : ℕ} {x : Landmark}
    (w h : ℤ) (hx : lm.get? i = some x) :
    get_point lm i w h = some (pixel x w h) := by
  unfold get_point
  rw [hx]

lemma get_point_eq_none {lm : List Landmark} {i : ℕ} (w h : ℤ)
    (hlen : lm.length ≤ i) : get_point lm i w h = none := by
  unfold get_point
  rw [List.get?_eq_none.mpr hlen]

lemma arm_fail (lm : List Landmark) (w h : ℤ) (s : ServoState)
    (hlen : lm.length ≤ 16) :
    calculate_arm_servos lm w h s = (none, s) := by
  have h16 : get_point lm 16 w h = none := get_point_eq_none w h (by omega)
  unfold calculate_arm_servos
  cases h11 : get_point lm 11 w h with
  | none => rfl
  | some p11 =>
    cases h12 : get_point lm 12 w h with
    | none => rfl
    | some p12 =>
      cases h13 : get_point lm 13 w h with
      | none => rfl
      | some p13 =>
        cases h14 : get_point lm 14 w h with
        | none => rfl
        | some p14 =>
          cases h15 : get_point lm 15 w h with
          | none => rfl
          | some p15 => rw [h16]

lemma fwd_fail (lm : List Landmark) (w h : ℤ) (s : ServoState)
    (hlen : lm.length ≤ 16) :
    calculate_shoulder_forward_servos lm w h s = (none, s) := by
  have h16 : lm.get? 16 = none := List.get?_eq_none.mpr (by omega)
  unfold calculate_shoulder_forward_servos
  cases h11 : lm.get? 11 with
  | none => rfl
  | some p11 =>
    cases h12 : lm.get? 12 with
    | none => rfl
    | some p12 =>
      cases h15 : lm.get? 15 with
      | none => rfl
      | some p15 => rw [h16]

lemma hip_fail (lm : List Landmark) (w h : ℤ) (s : ServoState)
    (hlen : lm.length ≤ 26) :
    calculate_hip_servos lm w h s = (none, s) := by
  have h26 : lm.get? 26 = none := List.get?_eq_none.mpr (by omega)
  unfold calculate_hip_servos
  cases h23 : lm.get? 23 with
  | none => rfl
  | some p23 =>
    cases h24 : lm.get? 24 with
    | none => rfl
    | some p24 =>
      cases h25 : lm.get? 25 with
      | none => rfl
      | some p25 => rw [h26]

lemma knee_fail (lm : List Landmark) (w h : ℤ) (s : ServoState)
    (hlen : lm.length ≤ 28) :
    calculate_knee_servos lm w h s = (none, s) := by
  have h28 : get_point lm 28 w h = none := get_point_eq_none w h (by omega)
  unfold calculate_knee_servos
  cases h23 : get_point lm 23 w h with
  | none => rfl
  | some p23 =>
    cases h24 : get_point lm 24 w h with
    | none => rfl
    | some p24 =>
      cases h25 : get_point lm 25 w h with
      | none => rfl
      | some p25 =>
        cases h26 : get_point lm 26 w h with
        | none => rfl
        | some p26 =>
          cases h27 : get_point lm 27 w h with
          | none => rfl
          | some p27 => rw [h28]

lemma arm_eq_emit (lm : List Landmark) (w h : ℤ) (hlen : 17 ≤ lm.length) :
    ∃ a1 a2 a3 a4 : Option ℤ, ∀ s : ServoState,
      calculate_arm_servos lm w h s = armEmit s a1 a2 a3 a4 := by
  obtain ⟨x11, h11⟩ := get?_some_of_lt lm 11 (by omega)
  obtain ⟨x12, h12⟩ := get?_some_of_lt lm 12 (by omega)
  obtain ⟨x13, h13⟩ := get?_some_of_lt lm 13 (by omega)
  obtain ⟨x14, h14⟩ := get?_some_of_lt lm 14 (by omega)
  obtain ⟨x15, h15⟩ := get?_some_of_lt lm 15 (by omega)
  obtain ⟨x16, h16⟩ := get?_some_of_lt lm 16 (by omega)
  refine ⟨vector_2d_angle (vsub (pixel x11 w h) (w, (pixel x11 w h).2))
      (vsub (pixel x11 w h) (pixel x13 w h)),
    vector_2d_angle (vsub (pixel x13 w h) (pixel x11 w h))
      (vsub (pixel x15 w h) (pixel x13 w h)),
    vector_2d_angle (vsub (pixel x12 w h) (0, (pixel x12 w h).2))
      (vsub (pixel x12 w h) (pixel x14 w h)),
    vector_2d_angle (vsub (pixel x14 w h) (pixel x12 w h))
      (vsub (pixel x16 w h) (pixel x14 w h)), fun s => ?_⟩
  unfold calculate_arm_servos
  rw [get_point_eq_some w h h11, get_point_eq_some w h h12,
    get_point_eq_some w h h13, get_point_eq_some w h h14,
    get_point_eq_some w h h15, get_point_eq_some w h h16]

lemma fwd_eq_emit (lm : List Landmark) (w h : ℤ) (hlen : 17 ≤ lm.length) :
    ∃ ls rs lw rw' : Landmark,
      lm.get? 11 = some ls ∧ lm.get? 12 = some rs ∧
      lm.get? 15 = some lw ∧ lm.get? 16 = some rw' ∧
      ∀ s : ServoState, calculate_shoulder_forward_servos lm w h s =
        fwdEmit s (ls.z - lw.z) (rs.z - rw'.z) := by
  obtain ⟨x11, h11⟩ := get?_some_of_lt lm 11 (by omega)
  obtain ⟨x12, h12⟩ := get?_some_of_lt lm 12 (by omega)
  obtain ⟨x15, h15⟩ := get?_some_of_lt lm 15 (by omega)
  obtain ⟨x16, h16⟩ := get?_some_of_lt lm 16 (by omega)
  refine ⟨x11, x12, x15, x16, h11, h12, h15, h16, fun s => ?_⟩
  unfold calculate_shoulder_forward_servos
  rw [h11, h12, h15, h16]

lemma hip_eq_emit (lm : List Landmark) (w h : ℤ) (hlen : 27 ≤ lm.length) :
    ∃ (a1 a2 : Option ℤ) (lz rz : ℚ), ∀ s : ServoState,
      calculate_hip_servos lm w h s = hipEmit s a1 a2 lz rz := by
  obtain ⟨x23, h23⟩ := get?_some_of_lt lm 23 (by omega)
  obtain ⟨x24, h24⟩ := get?_some_of_lt lm 24 (by omega)
  obtain ⟨x25, h25⟩ := get?_some_of_lt lm 25 (by omega)
  obtain ⟨x26, h26⟩ := get?_some_of_lt lm 26 (by omega)
  refine ⟨vector_2d_angle
      (vsub (pixel x23 w h) ((pixel x23 w h).1, (pixel x23 w h).2 + 100))
      (vsub (pixel x23 w h) (pixel x25 w h)),
    vector_2d_angle
      (vsub (pixel x24 w h) ((pixel x24 w h).1, (pixel x24 w h).2 + 100))
      (vsub (pixel x24 w h) (pixel x26 w h)),
    x23.z - x25.z, x24.z - x26.z, fun s => ?_⟩
  unfold calculate_hip_servos
  rw [h23, h24, h25, h26]

lemma knee_eq_emit (lm : List Landmark) (w h : ℤ) (hlen : 29 ≤ lm.length) :
    ∃ a1 a2 : Option ℤ, ∀ s : ServoState,
      calculate_knee_servos lm w h s = kneeEmit s a1 a2 := by
  obtain ⟨x23, h23⟩ := get?_some_of_lt lm 23 (by omega)
  obtain ⟨x24, h24⟩ := get?_some_of_lt lm 24 (by omega)
  obtain ⟨x25, h25⟩ := get?_some_of_lt lm 25 (by omega)
  obtain ⟨x26, h26⟩ := get?_some_of_lt lm 26 (by omega)
  obtain ⟨x27, h27⟩ := get?_some_of_lt lm 27 (by omega)
  obtain ⟨x28, h28⟩ := get?_some_of_lt lm 28 (by omega)
  refine ⟨vector_2d_angle (vsub (pixel x23 w h) (pixel x25 w h))
      (vsub (pixel x27 w h) (pixel x25 w h)),
    vector_2d_angle (vsub (pixel x24 w h) (pixel x26 w h))
      (vsub (pixel x28 w h) (pixel x26 w h)), fun s => ?_⟩
  unfold calculate_knee_servos
  rw [get_point_eq_some w h h23, get_point_eq_some w h h24,
    get_point_eq_some w h h25, get_point_eq_some w h h26,
    get_point_eq_some w h h27, get_point_eq_some w h h28]

/-! ### Emit-level facts -/

lemma smooth_chain_bounds {s : ServoState} (hs : stateOK s = true) (k x : ℤ) :
    posOK (smooth_servo s k (clamp_servo x)).1 = true ∧
    stateOK (smooth_servo s k (clamp_servo x)).2 = true :=
  smooth_step hs (posOK_clamp x)

lemma armEmit_fst_some (s : ServoState) (a1 a2 a3 a4 : Option ℤ) :
    ∃ cl, (armEmit s a1 a2 a3 a4).1 = some cl := by
  cases a1 <;> cases a2 <;> cases a3 <;> cases a4 <;> exact ⟨_, rfl⟩

lemma armEmit_ids (s : ServoState) (a1 a2 a3 a4 : Option ℤ) :
    ∀ c ∈ (armEmit s a1 a2 a3 a4).1.getD [],
      c.servo_id = 15 ∨ c.servo_id = 14 ∨ c.servo_id = 7 ∨ c.servo_id = 6 := by
  intro c hc
  cases a1 <;> cases a2 <;> cases a3 <;> cases a4 <;>
    simp [armEmit] at hc <;>
    (rcases hc with rfl | rfl | rfl | rfl <;> simp)

lemma armEmit_bounds {s : ServoState} (hs : stateOK s = true)
    (a1 a2 a3 a4 : Option ℤ) :
    cmdsOK ((armEmit s a1 a2 a3 a4).1.getD []) = true ∧
    stateOK (armEmit s a1 a2 a3 a4).2 = true := by
  cases a1 <;> cases a2 <;> cases a3 <;> cases a4 <;>
    first
    | exact ⟨rfl, hs⟩
    | (rename_i lsa lea rsa rea
       simp only [armEmit]
       obtain ⟨p15, q15⟩ := smooth_chain_bounds hs 15
         (truncQ (val_map (lsa : ℚ) (-90) 90 (SERVO_MIN : ℚ) (SERVO_MAX : ℚ)))
       obtain ⟨p14, q14⟩ := smooth_chain_bounds q15 14
         (truncQ (val_map (lea : ℚ) (-90) 90 (SERVO_MIN : ℚ) (SERVO_MAX : ℚ)))
       obtain ⟨p7, q7⟩ := smooth_chain_bounds q14 7
         (truncQ (val_map (rsa : ℚ) (-90) 90 (SERVO_MIN : ℚ) (SERVO_MAX : ℚ)))
       obtain ⟨p6, q6⟩ := smooth_chain_bounds q7 6
         (truncQ (val_map (rea : ℚ) (-90) 90 (SERVO_MIN : ℚ) (SERVO_MAX : ℚ)))
       exact ⟨by simp only [cmdsOK, Option.getD_some, List.cons_append, List.nil_append,
        List.append_nil, List.all_cons, List.all_nil, Bool.and_true, Bool.and_eq_true]; exact ⟨p15, p14, p7, p6⟩, q6⟩)

lemma armEmit_lookup_ne (s : ServoState) (a1 a2 a3 a4 : Option ℤ) {k : ℤ}
    (h15 : k ≠ 15) (h14 : k ≠ 14) (h7 : k ≠ 7) (h6 : k ≠ 6) :
    ((armEmit s a1 a2 a3 a4).2).lookup k = s.lookup k := by
  cases a1 <;> cases a2 <;> cases a3 <;> cases a4 <;>
    first
    | rfl
    | (simp only [armEmit]
       rw [smooth_lookup_ne _ _ h6, smooth_lookup_ne _ _ h7,
         smooth_lookup_ne _ _ h14, smooth_lookup_ne _ _ h15])

lemma armEmit_stable (s t : ServoState) (a1 a2 a3 a4 : Option ℤ)
    (h15 : t.lookup 15 = ((armEmit s a1 a2 a3 a4).2).lookup 15)
    (h14 : t.lookup 14 = ((armEmit s a1 a2 a3 a4).2).lookup 14)
    (h7 : t.lookup 7 = ((armEmit s a1 a2 a3 a4).2).lookup 7)
    (h6 : t.lookup 6 = ((armEmit s a1 a2 a3 a4).2).lookup 6) :
    armEmit t a1 a2 a3 a4 = ((armEmit s a1 a2 a3 a4).1, t) := by
  cases a1 <;> cases a2 <;> cases a3 <;> cases a4 <;>
    first
    | rfl
    | (simp only [armEmit] at h15 h14 h7 h6 ⊢
       rw [smooth_lookup_ne _ _ (by decide : (15 : ℤ) ≠ 6),
         smooth_lookup_ne _ _ (by decide : (15 : ℤ) ≠ 7),
         smooth_lookup_ne _ _ (by decide : (15 : ℤ) ≠ 14)] at h15
       rw [smooth_lookup_ne _ _ (by decide : (14 : ℤ) ≠ 6),
         smooth_lookup_ne _ _ (by decide : (14 : ℤ) ≠ 7)] at h14
       rw [smooth_lookup_ne _ _ (by decide : (7 : ℤ) ≠ 6)] at h7
       rw [smooth_stable 15 _ h15]
       dsimp only
       rw [smooth_stable 14 _ h14]
       dsimp only
       rw [smooth_stable 7 _ h7]
       dsimp only
       rw [smooth_stable 6 _ h6])

lemma fwdEmit_ids (s : ServoState) (lz rz : ℚ) :
    ∀ c ∈ (fwdEmit s lz rz).1.getD [],
      c.servo_id = 16 ∨ c.servo_id = 8 := by
  intro c hc
  simp [fwdEmit] at hc
  rcases hc with rfl | rfl <;> simp

lemma fwdEmit_bounds {s : ServoState} (hs : stateOK s = true) (lz rz : ℚ) :
    cmdsOK ((fwdEmit s lz rz).1.getD []) = true ∧
    stateOK (fwdEmit s lz rz).2 = true := by
  simp only [fwdEmit]
  obtain ⟨p16, q16⟩ := smooth_chain_bounds hs 16
    (truncQ (val_map lz (-(3/10)) (3/10) 500 125))
  obtain ⟨p8, q8⟩ := smooth_chain_bounds q16 8
    (truncQ (val_map rz (-(3/10)) (3/10) 500 900))
  exact ⟨by simp only [cmdsOK, Option.getD_some, List.cons_append, List.nil_append,
        List.append_nil, List.all_cons, List.all_nil, Bool.and_true, Bool.and_eq_true]; exact ⟨p16, p8⟩, q8⟩

lemma fwdEmit_lookup_ne (s : ServoState) (lz rz : ℚ) {k : ℤ}
    (h16 : k ≠ 16) (h8 : k ≠ 8) :
    ((fwdEmit s lz rz).2).lookup k = s.lookup k := by
  simp only [fwdEmit]
  rw [smooth_lookup_ne _ _ h8, smooth_lookup_ne _ _ h16]

lemma fwdEmit_stable (s t : ServoState) (lz rz : ℚ)
    (h16 : t.lookup 16 = ((fwdEmit s lz rz).2).lookup 16)
    (h8 : t.lookup 8 = ((fwdEmit s lz rz).2).lookup 8) :
    fwdEmit t lz rz = ((fwdEmit s lz rz).1, t) := by
  simp only [fwdEmit] at h16 h8 ⊢
  rw [smooth_lookup_ne _ _ (by decide : (16 : ℤ) ≠ 8)] at h16
  rw [smooth_stable 16 _ h16]
  dsimp only
  rw [smooth_stable 8 _ h8]

lemma hipEmit_fst_some (s : ServoState) (a1 a2 : Option ℤ) (lz rz : ℚ) :
    ∃ cl, (hipEmit s a1 a2 lz rz).1 = some cl := by
  cases a1 <;> cases a2 <;> exact ⟨_, rfl⟩

lemma hipEmit_ids (s : ServoState) (a1 a2 : Option ℤ) (lz rz : ℚ) :
    ∀ c ∈ (hipEmit s a1 a2 lz rz).1.getD [],
      c.servo_id = 4 ∨ c.servo_id = 12 ∨ c.servo_id = 3 ∨ c.servo_id = 11 := by
  intro c hc
  cases a1 <;> cases a2 <;> simp [hipEmit] at hc <;>
    (rcases hc with rfl | rfl | rfl | rfl <;> simp)

lemma hipEmit_bounds {s : ServoState} (hs : stateOK s = true)
    (a1 a2 : Option ℤ) (lz rz : ℚ) :
    cmdsOK ((hipEmit s a1 a2 lz rz).1.getD []) = true ∧
    stateOK (hipEmit s a1 a2 lz rz).2 = true := by
  cases a1 with
  | none =>
    cases a2 with
    | none =>
      simp only [hipEmit]
      obtain ⟨p3, q3⟩ := smooth_chain_bounds hs 3
        (truncQ (val_map lz (-(1/5)) (1/5) 700 300))
      obtain ⟨p11, q11⟩ := smooth_chain_bounds q3 11
        (truncQ (val_map rz (-(1/5)) (1/5) 300 700))
      exact ⟨by simp only [cmdsOK, Option.getD_some, List.cons_append, List.nil_append,
        List.append_nil, List.all_cons, List.all_nil, Bool.and_true, Bool.and_eq_true]; exact ⟨p3, p11⟩, q11⟩
    | some b =>
      simp only [hipEmit]
      obtain ⟨p12, q12⟩ := smooth_chain_bounds hs 12
        (truncQ (val_map (b : ℚ) (-45) 45 250 550))
      obtain ⟨p3, q3⟩ := smooth_chain_bounds q12 3
        (truncQ (val_map lz (-(1/5)) (1/5) 700 300))
      obtain ⟨p11, q11⟩ := smooth_chain_bounds q3 11
        (truncQ (val_map rz (-(1/5)) (1/5) 300 700))
      exact ⟨by simp only [cmdsOK, Option.getD_some, List.cons_append, List.nil_append,
        List.append_nil, List.all_cons, List.all_nil, Bool.and_true, Bool.and_eq_true]; exact ⟨p12, p3, p11⟩, q11⟩
  | some a =>
    cases a2 with
    | none =>
      simp only [hipEmit]
      obtain ⟨p4, q4⟩ := smooth_chain_bounds hs 4
        (truncQ (val_map (a : ℚ) (-45) 45 450 750))
      obtain ⟨p3, q3⟩ := smooth_chain_bounds q4 3
        (truncQ (val_map lz (-(1/5)) (1/5) 700 300))
      obtain ⟨p11, q11⟩ := smooth_chain_bounds q3 11
        (truncQ (val_map rz (-(1/5)) (1/5) 300 700))
      exact ⟨by simp only [cmdsOK, Option.getD_some, List.cons_append, List.nil_append,
        List.append_nil, List.all_cons, List.all_nil, Bool.and_true, Bool.and_eq_true]; exact ⟨p4, p3, p11⟩, q11⟩
    | some b =>
      simp only [hipEmit]
      obtain ⟨p4, q4⟩ := smooth_chain_bounds hs 4
        (truncQ (val_map (a : ℚ) (-45) 45 450 750))
      obtain ⟨p12, q12⟩ := smooth_chain_bounds q4 12
        (truncQ (val_map (b : ℚ) (-45) 45 250 550))
      obtain ⟨p3, q3⟩ := smooth_chain_bounds q12 3
        (truncQ (val_map lz (-(1/5)) (1/5) 700 300))
      obtain ⟨p11, q11⟩ := smooth_chain_bounds q3 11
        (truncQ (val_map rz (-(1/5)) (1/5) 300 700))
      exact ⟨by simp only [cmdsOK, Option.getD_some, List.cons_append, List.nil_append,
        List.append_nil, List.all_cons, List.all_nil, Bool.and_true, Bool.and_eq_true]; exact ⟨p4, p12, p3, p11⟩, q11⟩

lemma hipEmit_lookup_ne (s : ServoState) (a1 a2 : Option ℤ) (lz rz : ℚ) {k : ℤ}
    (h4 : k ≠ 4) (h12 : k ≠ 12) (h3 : k ≠ 3) (h11 : k ≠ 11) :
    ((hipEmit s a1 a2 lz rz).2).lookup k = s.lookup k := by
  cases a1 <;> cases a2 <;> simp only [hipEmit] <;>
    first
    | rw [smooth_lookup_ne _ _ h11, smooth_lookup_ne _ _ h3,
        smooth_lookup_ne _ _ h12, smooth_lookup_ne _ _ h4]
    | rw [smooth_lookup_ne _ _ h11, smooth_lookup_ne _ _ h3,
        smooth_lookup_ne _ _ h12]
    | rw [smooth_lookup_ne _ _ h11, smooth_lookup_ne _ _ h3,
        smooth_lookup_ne _ _ h4]
    | rw [smooth_lookup_ne _ _ h11, smooth_lookup_ne _ _ h3]

lemma hipEmit_stable (s t : ServoState) (a1 a2 : Option ℤ) (lz rz : ℚ)
    (h4 : t.lookup 4 = ((hipEmit s a1 a2 lz rz).2).lookup 4)
    (h12 : t.lookup 12 = ((hipEmit s a1 a2 lz rz).2).lookup 12)
    (h3 : t.lookup 3 = ((hipEmit s a1 a2 lz rz).2).lookup 3)
    (h11 : t.lookup 11 = ((hipEmit s a1 a2 lz rz).2).lookup 11) :
    hipEmit t a1 a2 lz rz = ((hipEmit s a1 a2 lz rz).1, t) := by
  cases a1 with
  | none =>
    cases a2 with
    | none =>
      simp only [hipEmit] at h3 h11 ⊢
      rw [smooth_lookup_ne _ _ (by decide : (3 : ℤ) ≠ 11)] at h3
      rw [smooth_stable 3 _ h3]
      dsimp only
      rw [smooth_stable 11 _ h11]
    | some b =>
      simp only [hipEmit] at h12 h3 h11 ⊢
      rw [smooth_lookup_ne _ _ (by decide : (12 : ℤ) ≠ 11),
        smooth_lookup_ne _ _ (by decide : (12 : ℤ) ≠ 3)] at h12
      rw [smooth_lookup_ne _ _ (by decide : (3 : ℤ) ≠ 11)] at h3
      rw [smooth_stable 12 _ h12]
      dsimp only
      rw [smooth_stable 3 _ h3]
      dsimp only
      rw [smooth_stable 11 _ h11]
  | some a =>
    cases a2 with
    | none =>
      simp only [hipEmit] at h4 h3 h11 ⊢
      rw [smooth_lookup_ne _ _ (by decide : (4 : ℤ) ≠ 11),
        smooth_lookup_ne _ _ (by decide : (4 : ℤ) ≠ 3)] at h4
      rw [smooth_lookup_ne _ _ (by decide : (3 : ℤ) ≠ 11)] at h3
      rw [smooth_stable 4 _ h4]
      dsimp only
      rw [smooth_stable 3 _ h3]
      dsimp only
      rw [smooth_stable 11 _ h11]
    | some b =>
      simp only [hipEmit] at h4 h12 h3 h11 ⊢
      rw [smooth_lookup_ne _ _ (by decide : (4 : ℤ) ≠ 11),
        smooth_lookup_ne _ _ (by decide : (4 : ℤ) ≠ 3),
        smooth_lookup_ne _ _ (by decide : (4 : ℤ) ≠ 12)] at h4
      rw [smooth_lookup_ne _ _ (by decide : (12 : ℤ) ≠ 11),
        smooth_lookup_ne _ _ (by decide : (12 : ℤ) ≠ 3)] at h12
      rw [smooth_lookup_ne _ _ (by decide : (3 : ℤ) ≠ 11)] at h3
      rw [smooth_stable 4 _ h4]
      dsimp only
      rw [smooth_stable 12 _ h12]
      dsimp only
      rw [smooth_stable 3 _ h3]
      dsimp only
      rw [smooth_stable 11 _ h11]

lemma kneeEmit_fst_some (s : ServoState) (a1 a2 : Option ℤ) :
    ∃ cl, (kneeEmit s a1 a2).1 = some cl := by
  cases a1 <;> cases a2 <;> exact ⟨_, rfl⟩

lemma kneeEmit_ids (s : ServoState) (a1 a2 : Option ℤ) :
    ∀ c ∈ (kneeEmit s a1 a2).1.getD [],
      c.servo_id = 2 ∨ c.servo_id = 10 := by
  intro c hc
  cases a1 <;> cases a2 <;> simp [kneeEmit] at hc <;>
    (rcases hc with rfl | rfl <;> simp)

lemma kneeEmit_bounds {s : ServoState} (hs : stateOK s = true)
    (a1 a2 : Option ℤ) :
    cmdsOK ((kneeEmit s a1 a2).1.getD []) = true ∧
    stateOK (kneeEmit s a1 a2).2 = true := by
  cases a1 with
  | none =>
    cases a2 with
    | none => exact ⟨rfl, hs⟩
    | some b =>
      simp only [kneeEmit]
      obtain ⟨p10, q10⟩ := smooth_chain_bounds hs 10
        (truncQ (val_map ((|b| : ℤ) : ℚ) 90 180 850 610))
      exact ⟨by simp only [cmdsOK, Option.getD_some, List.cons_append, List.nil_append,
        List.append_nil, List.all_cons, List.all_nil, Bool.and_true, Bool.and_eq_true]; exact p10, q10⟩
  | some a =>
    cases a2 with
    | none =>
      simp only [kneeEmit]
      obtain ⟨p2, q2⟩ := smooth_chain_bounds hs 2
        (truncQ (val_map ((|a| : ℤ) : ℚ) 90 180 150 390))
      exact ⟨by simp only [cmdsOK, Option.getD_some, List.cons_append, List.nil_append,
        List.append_nil, List.all_cons, List.all_nil, Bool.and_true, Bool.and_eq_true]; exact p2, q2⟩
    | some b =>
      simp only [kneeEmit]
      obtain ⟨p2, q2⟩ := smooth_chain_bounds hs 2
        (truncQ (val_map ((|a| : ℤ) : ℚ) 90 180 150 390))
      obtain ⟨p10, q10⟩ := smooth_chain_bounds q2 10
        (truncQ (val_map ((|b| : ℤ) : ℚ) 90 180 850 610))
      exact ⟨by simp only [cmdsOK, Option.getD_some, List.cons_append, List.nil_append,
        List.append_nil, List.all_cons, List.all_nil, Bool.and_true, Bool.and_eq_true]; exact ⟨p2, p10⟩, q10⟩

lemma kneeEmit_lookup_ne (s : ServoState) (a1 a2 : Option ℤ) {k : ℤ}
    (h2 : k ≠ 2) (h10 : k ≠ 10) :
    ((kneeEmit s a1 a2).2).lookup k = s.lookup k := by
  cases a1 <;> cases a2 <;> simp only [kneeEmit] <;>
    first
    | rfl
    | rw [smooth_lookup_ne _ _ h10, smooth_lookup_ne _ _ h2]
    | rw [smooth_lookup_ne _ _ h10]
    | rw [smooth_lookup_ne _ _ h2]

lemma kneeEmit_stable (s t : ServoState) (a1 a2 : Option ℤ)
    (h2 : t.lookup 2 = ((kneeEmit s a1 a2).2).lookup 2)
    (h10 : t.lookup 10 = ((kneeEmit s a1 a2).2).lookup 10) :
    kneeEmit t a1 a2 = ((kneeEmit s a1 a2).1, t) := by
  cases a1 with
  | none =>
    cases a2 with
    | none => rfl
    | some b =>
      simp only [kneeEmit] at h10 ⊢
      rw [smooth_stable 10 _ h10]
  | some a =>
    cases a2 with
    | none =>
      simp only [kneeEmit] at h2 ⊢
      rw [smooth_stable 2 _ h2]
    | some b =>
      simp only [kneeEmit] at h2 h10 ⊢
      rw [smooth_lookup_ne _ _ (by decide : (2 : ℤ) ≠ 10)] at h2
      rw [smooth_stable 2 _ h2]
      dsimp only
      rw [smooth_stable 10 _ h10]

/-! ### Pipeline-level composition -/

lemma pair_eta_fst {α β : Type} (p : α × β) {x : α} (h : p.1 = x) :
    p = (x, p.2) := by
  rw [← h]

lemma fwdEmit_fst_cons (u : ServoState) (lz rz : ℚ) :
    ∃ c16 c8, (fwdEmit u lz rz).1 = some [c16, c8] := ⟨_, _, rfl⟩

lemma top_fail (fb : Bool) (lm : List Landmark) (w h : ℤ) (s : ServoState)
    (hlen : lm.length ≤ 16) :
    calculate_servo_commands fb lm w h s = (none, s) := by
  unfold calculate_servo_commands
  rw [arm_fail lm w h s hlen]

lemma top_false (lm : List Landmark) (w h : ℤ) (s : ServoState)
    (a1 a2 a3 a4 : Option ℤ) (lz rz : ℚ)
    (harm : ∀ u, calculate_arm_servos lm w h u = armEmit u a1 a2 a3 a4)
    (hfwd : ∀ u, calculate_shoulder_forward_servos lm w h u = fwdEmit u lz rz) :
    calculate_servo_commands false lm w h s =
      (some (some ((armEmit s a1 a2 a3 a4).1.getD [] ++
          (fwdEmit (armEmit s a1 a2 a3 a4).2 lz rz).1.getD [])),
        (fwdEmit (armEmit s a1 a2 a3 a4).2 lz rz).2) := by
  obtain ⟨cl, hcl⟩ := armEmit_fst_some s a1 a2 a3 a4
  obtain ⟨c16, c8, hF⟩ := fwdEmit_fst_cons (armEmit s a1 a2 a3 a4).2 lz rz
  unfold calculate_servo_commands
  rw [harm s, pair_eta_fst _ hcl]
  dsimp only
  rw [hfwd _, pair_eta_fst _ hF]
  dsimp only
  have hne : (cl ++ [c16, c8]).isEmpty = false := by cases cl <;> rfl
  simp [hne]

lemma top_true_hipfail (lm : List Landmark) (w h : ℤ) (s : ServoState)
    (a1 a2 a3 a4 : Option ℤ) (lz rz : ℚ)
    (harm : ∀ u, calculate_arm_servos lm w h u = armEmit u a1 a2 a3 a4)
    (hfwd : ∀ u, calculate_shoulder_forward_servos lm w h u = fwdEmit u lz rz)
    (hhip : ∀ u, calculate_hip_servos lm w h u = (none, u)) :
    calculate_servo_commands true lm w h s =
      (none, (fwdEmit (armEmit s a1 a2 a3 a4).2 lz rz).2) := by
  obtain ⟨cl, hcl⟩ := armEmit_fst_some s a1 a2 a3 a4
  obtain ⟨c16, c8, hF⟩ := fwdEmit_fst_cons (armEmit s a1 a2 a3 a4).2 lz rz
  unfold calculate_servo_commands
  rw [harm s, pair_eta_fst _ hcl]
  dsimp only
  rw [hfwd _, pair_eta_fst _ hF]
  dsimp only
  rw [hhip _]
  simp

lemma top_true_kneefail (lm : List Landmark) (w h : ℤ) (s : ServoState)
    (a1 a2 a3 a4 : Option ℤ) (lz rz : ℚ) (b1 b2 : Option ℤ) (hlz hrz : ℚ)
    (harm : ∀ u, calculate_arm_servos lm w h u = armEmit u a1 a2 a3 a4)
    (hfwd : ∀ u, calculate_shoulder_forward_servos lm w h u = fwdEmit u lz rz)
    (hhip : ∀ u, calculate_hip_servos lm w h u = hipEmit u b1 b2 hlz hrz)
    (hknee : ∀ u, calculate_knee_servos lm w h u = (none, u)) :
    calculate_servo_commands true lm w h s =
      (none, (hipEmit (fwdEmit (armEmit s a1 a2 a3 a4).2 lz rz).2 b1 b2 hlz hrz).2) := by
  obtain ⟨cl, hcl⟩ := armEmit_fst_some s a1 a2 a3 a4
  obtain ⟨c16, c8, hF⟩ := fwdEmit_fst_cons (armEmit s a1 a2 a3 a4).2 lz rz
  obtain ⟨hl, hH⟩ := hipEmit_fst_some (fwdEmit (armEmit s a1 a2 a3 a4).2 lz rz).2 b1 b2 hlz hrz
  unfold calculate_servo_commands
  rw [harm s, pair_eta_fst _ hcl]
  dsimp only
  rw [hfwd _, pair_eta_fst _ hF]
  dsimp only
  rw [hhip _, pair_eta_fst _ hH]
  dsimp only
  rw [hknee _]
  simp

lemma top_true (lm : List Landmark) (w h : ℤ) (s : ServoState)
    (a1 a2 a3 a4 : Option ℤ) (lz rz : ℚ) (b1 b2 : Option ℤ) (hlz hrz : ℚ)
    (k1 k2 : Option ℤ)
    (harm : ∀ u, calculate_arm_servos lm w h u = armEmit u a1 a2 a3 a4)
    (hfwd : ∀ u, calculate_shoulder_forward_servos lm w h u = fwdEmit u lz rz)
    (hhip : ∀ u, calculate_hip_servos lm w h u = hipEmit u b1 b2 hlz hrz)
    (hknee : ∀ u, calculate_knee_servos lm w h u = kneeEmit u k1 k2) :
    calculate_servo_commands true lm w h s =
      (some (some ((armEmit s a1 a2 a3 a4).1.getD [] ++
          (fwdEmit (armEmit s a1 a2 a3 a4).2 lz rz).1.getD [] ++
          (hipEmit (fwdEmit (armEmit s a1 a2 a3 a4).2 lz rz).2 b1 b2 hlz hrz).1.getD [] ++
          (kneeEmit (hipEmit (fwdEmit (armEmit s a1 a2 a3 a4).2 lz rz).2 b1 b2 hlz hrz).2
            k1 k2).1.getD [])),
        (kneeEmit (hipEmit (fwdEmit (armEmit s a1 a2 a3 a4).2 lz rz).2 b1 b2 hlz hrz).2
          k1 k2).2) := by
  obtain ⟨cl, hcl⟩ := armEmit_fst_some s a1 a2 a3 a4
  obtain ⟨c16, c8, hF⟩ := fwdEmit_fst_cons (armEmit s a1 a2 a3 a4).2 lz rz
  obtain ⟨hl, hH⟩ := hipEmit_fst_some (fwdEmit (armEmit s a1 a2 a3 a4).2 lz rz).2 b1 b2 hlz hrz
  obtain ⟨kl, hK⟩ := kneeEmit_fst_some (hipEmit (fwdEmit (armEmit s a1 a2 a3 a4).2 lz rz).2
    b1 b2 hlz hrz).2 k1 k2
  unfold calculate_servo_commands
  rw [harm s, pair_eta_fst _ hcl]
  dsimp only
  rw [hfwd _, pair_eta_fst _ hF]
  dsimp only
  rw [hhip _, pair_eta_fst _ hH]
  dsimp only
  rw [hknee _, pair_eta_fst _ hK]
  dsimp only
  have hne : (cl ++ [c16, c8] ++ hl ++ kl).isEmpty = false := by cases cl <;> rfl
  simp [hne]

/-! ### Per-frame and session bounds (claim C1) -/

lemma calc_bounds (fb : Bool) (lm : List Landmark) (w h : ℤ) (s : ServoState)
    (hs : stateOK s = true) :
    cmdsOK (outList (calculate_servo_commands fb lm w h s).1) = true ∧
    stateOK (calculate_servo_commands fb lm w h s).2 = true := by
  by_cases hlen : lm.length ≤ 16
  · rw [top_fail fb lm w h s hlen]
    exact ⟨rfl, hs⟩
  push_neg at hlen
  obtain ⟨a1, a2, a3, a4, harm⟩ := arm_eq_emit lm w h (by omega)
  obtain ⟨ls, rs, lw, rw', _, _, _, _, hfwd⟩ := fwd_eq_emit lm w h (by omega)
  obtain ⟨cA, sA⟩ := armEmit_bounds hs a1 a2 a3 a4
  obtain ⟨cF, sF⟩ := fwdEmit_bounds sA (ls.z - lw.z) (rs.z - rw'.z)
  cases fb with
  | false =>
    rw [top_false lm w h s a1 a2 a3 a4 _ _ harm hfwd]
    refine ⟨?_, sF⟩
    simp only [outList, cmdsOK, List.all_append, Bool.and_eq_true]
    exact ⟨cA, cF⟩
  | true =>
    by_cases hhiplen : lm.length ≤ 26
    · rw [top_true_hipfail lm w h s a1 a2 a3 a4 _ _ harm hfwd
        (fun u => hip_fail lm w h u hhiplen)]
      exact ⟨rfl, sF⟩
    push_neg at hhiplen
    obtain ⟨b1, b2, hlz, hrz, hhip⟩ := hip_eq_emit lm w h (by omega)
    obtain ⟨cH, sH⟩ := hipEmit_bounds sF b1 b2 hlz hrz
    by_cases hkneelen : lm.length ≤ 28
    · rw [top_true_kneefail lm w h s a1 a2 a3 a4 _ _ b1 b2 hlz hrz harm hfwd hhip
        (fun u => knee_fail lm w h u hkneelen)]
      exact ⟨rfl, sH⟩
    push_neg at hkneelen
    obtain ⟨k1, k2, hknee⟩ := knee_eq_emit lm w h (by omega)
    obtain ⟨cK, sK⟩ := kneeEmit_bounds sH k1 k2
    rw [top_true lm w h s a1 a2 a3 a4 _ _ b1 b2 hlz hrz k1 k2 harm hfwd hhip hknee]
    refine ⟨?_, sK⟩
    simp only [outList, cmdsOK, List.all_append, Bool.and_eq_true]
    exact ⟨⟨⟨cA, cF⟩, cH⟩, cK⟩

lemma session_bounds (inputs : List (Bool × List Landmark × ℤ × ℤ)) :
    ∀ s : ServoState, stateOK s = true →
      cmdsOK (runSession inputs s).1 = true ∧
      stateOK (runSession inputs s).2 = true := by
  induction inputs with
  | nil => exact fun s hs => ⟨rfl, hs⟩
  | cons frame rest ih =>
    intro s hs
    obtain ⟨fb, lm, w, h⟩ := frame
    have hb := calc_bounds fb lm w h s hs
    unfold runSession
    rcases hr : calculate_servo_commands fb lm w h s with ⟨o, s1⟩
    rw [hr] at hb
    cases o with
    | none => exact ⟨rfl, hb.2⟩
    | some r =>
      obtain ⟨cR, sR⟩ := ih s1 hb.2
      dsimp only
      refine ⟨?_, sR⟩
      simp only [cmdsOK, List.all_append, Bool.and_eq_true]
      refine ⟨?_, cR⟩
      cases r with
      | none => rfl
      | some l => exact hb.1

/-- C1: over any session (any sequence of frames, in any mode, from the
engine's empty initial state), every emitted command position lies in
`[SERVO_MIN, SERVO_MAX]`, and every value held in the smoothing state
(`last_servos`) — the values the filter can re-emit — lies in the same
bounds. -/
theorem c1_servo_bounds :
    ∀ inputs : List (Bool × List Landmark × ℤ × ℤ),
      (cmdsOK (runSession inputs []).1 && stateOK (runSession inputs []).2) = true := by
  intro inputs
  rw [Bool.and_eq_true]
  exact session_bounds inputs [] rfl

/-! ### Claim C7: idempotence of stabilized processing -/

/-- C7: processing the identical frame twice in a row, from any prior
state and in any mode, yields the identical result the second time —
the same command sequence (same actuators, same order, same positions)
and an unchanged smoothing state. -/
theorem c7_idempotent (fb : Bool) (lm : List Landmark) (w h : ℤ) (s : ServoState) :
    calculate_servo_commands fb lm w h ((calculate_servo_commands fb lm w h s).2) =
      calculate_servo_commands fb lm w h s := by
  by_cases hlen : lm.length ≤ 16
  · rw [top_fail fb lm w h s hlen]
    exact top_fail fb lm w h s hlen
  push_neg at hlen
  obtain ⟨a1, a2, a3, a4, harm⟩ := arm_eq_emit lm w h (by omega)
  obtain ⟨ls, rs, lw, rw', _, _, _, _, hfwd⟩ := fwd_eq_emit lm w h (by omega)
  cases fb with
  | false =>
    rw [top_false lm w h s a1 a2 a3 a4 _ _ harm hfwd]
    dsimp only
    rw [top_false lm w h _ a1 a2 a3 a4 _ _ harm hfwd]
    rw [armEmit_stable s _ a1 a2 a3 a4
      (fwdEmit_lookup_ne _ _ _ (by decide) (by decide))
      (fwdEmit_lookup_ne _ _ _ (by decide) (by decide))
      (fwdEmit_lookup_ne _ _ _ (by decide) (by decide))
      (fwdEmit_lookup_ne _ _ _ (by decide) (by decide))]
    dsimp only
    rw [fwdEmit_stable (armEmit s a1 a2 a3 a4).2 _ _ _ rfl rfl]
  | true =>
    by_cases hhiplen : lm.length ≤ 26
    · have hhip : ∀ u, calculate_hip_servos lm w h u = (none, u) :=
        fun u => hip_fail lm w h u hhiplen
      rw [top_true_hipfail lm w h s a1 a2 a3 a4 _ _ harm hfwd hhip]
      dsimp only
      rw [top_true_hipfail lm w h _ a1 a2 a3 a4 _ _ harm hfwd hhip]
      rw [armEmit_stable s _ a1 a2 a3 a4
        (fwdEmit_lookup_ne _ _ _ (by decide) (by decide))
        (fwdEmit_lookup_ne _ _ _ (by decide) (by decide))
        (fwdEmit_lookup_ne _ _ _ (by decide) (by decide))
        (fwdEmit_lookup_ne _ _ _ (by decide) (by decide))]
      dsimp only
      rw [fwdEmit_stable (armEmit s a1 a2 a3 a4).2 _ _ _ rfl rfl]
    push_neg at hhiplen
    obtain ⟨b1, b2, hlz, hrz, hhip⟩ := hip_eq_emit lm w h (by omega)
    by_cases hkneelen : lm.length ≤ 28
    · have hknee : ∀ u, calculate_knee_servos lm w h u = (none, u) :=
        fun u => knee_fail lm w h u hkneelen
      rw [top_true_kneefail lm w h s a1 a2 a3 a4 _ _ b1 b2 hlz hrz harm hfwd hhip hknee]
      dsimp only
      rw [top_true_kneefail lm w h _ a1 a2 a3 a4 _ _ b1 b2 hlz hrz harm hfwd hhip hknee]
      rw [armEmit_stable s _ a1 a2 a3 a4
        (by rw [hipEmit_lookup_ne _ _ _ _ _ (by decide) (by decide) (by decide) (by decide),
          fwdEmit_lookup_ne _ _ _ (by decide) (by decide)])
        (by rw [hipEmit_lookup_ne _ _ _ _ _ (by decide) (by decide) (by decide) (by decide),
          fwdEmit_lookup_ne _ _ _ (by decide) (by decide)])
        (by rw [hipEmit_lookup_ne _ _ _ _ _ (by decide) (by decide) (by decide) (by decide),
          fwdEmit_lookup_ne _ _ _ (by decide) (by decide)])
        (by rw [hipEmit_lookup_ne _ _ _ _ _ (by decide) (by decide) (by decide) (by decide),
          fwdEmit_lookup_ne _ _ _ (by decide) (by decide)])]
      dsimp only
      rw [fwdEmit_stable (armEmit s a1 a2 a3 a4).2 _ _ _
        (by rw [hipEmit_lookup_ne _ _ _ _ _ (by decide) (by decide) (by decide) (by decide)])
        (by rw [hipEmit_lookup_ne _ _ _ _ _ (by decide) (by decide) (by decide) (by decide)])]
      dsimp only
      rw [hipEmit_stable (fwdEmit (armEmit s a1 a2 a3 a4).2 (ls.z - lw.z)
        (rs.z - rw'.z)).2 _ b1 b2 hlz hrz rfl rfl rfl rfl]
    push_neg at hkneelen
    obtain ⟨k1, k2, hknee⟩ := knee_eq_emit lm w h (by omega)
    rw [top_true lm w h s a1 a2 a3 a4 _ _ b1 b2 hlz hrz k1 k2 harm hfwd hhip hknee]
    dsimp only
    rw [top_true lm w h _ a1 a2 a3 a4 _ _ b1 b2 hlz hrz k1 k2 harm hfwd hhip hknee]
    rw [armEmit_stable s _ a1 a2 a3 a4
      (by rw [kneeEmit_lookup_ne _ _ _ (by decide) (by decide),
        hipEmit_lookup_ne _ _ _ _ _ (by decide) (by decide) (by decide) (by decide),
        fwdEmit_lookup_ne _ _ _ (by decide) (by decide)])
      (by rw [kneeEmit_lookup_ne _ _ _ (by decide) (by decide),
        hipEmit_lookup_ne _ _ _ _ _ (by decide) (by decide) (by decide) (by decide),
        fwdEmit_lookup_ne _ _ _ (by decide) (by decide)])
      (by rw [kneeEmit_lookup_ne _ _ _ (by decide) (by decide),
        hipEmit_lookup_ne _ _ _ _ _ (by decide) (by decide) (by decide) (by decide),
        fwdEmit_lookup_ne _ _ _ (by decide) (by decide)])
      (by rw [kneeEmit_lookup_ne _ _ _ (by decide) (by decide),
        hipEmit_lookup_ne _ _ _ _ _ (by decide) (by decide) (by decide) (by decide),
        fwdEmit_lookup_ne _ _ _ (by decide) (by decide)])]
    dsimp only
    rw [fwdEmit_stable (armEmit s a1 a2 a3 a4).2 _ _ _
      (by rw [kneeEmit_lookup_ne _ _ _ (by decide) (by decide),
        hipEmit_lookup_ne _ _ _ _ _ (by decide) (by decide) (by decide) (by decide)])
      (by rw [kneeEmit_lookup_ne _ _ _ (by decide) (by decide),
        hipEmit_lookup_ne _ _ _ _ _ (by decide) (by decide) (by decide) (by decide)])]
    dsimp only
    rw [hipEmit_stable (fwdEmit (armEmit s a1 a2 a3 a4).2 (ls.z - lw.z)
        (rs.z - rw'.z)).2 _ b1 b2 hlz hrz
      (by rw [kneeEmit_lookup_ne _ _ _ (by decide) (by decide)])
      (by rw [kneeEmit_lookup_ne _ _ _ (by decide) (by decide)])
      (by rw [kneeEmit_lookup_ne _ _ _ (by decide) (by decide)])
      (by rw [kneeEmit_lookup_ne _ _ _ (by decide) (by decide)])]
    dsimp only
    rw [kneeEmit_stable (hipEmit (fwdEmit (armEmit s a1 a2 a3 a4).2 (ls.z - lw.z)
      (rs.z - rw'.z)).2 b1 b2 hlz hrz).2 _ k1 k2 rfl rfl]

/-! ### A concrete full-pose frame (100×100 image, all joints in view) -/

/-- A 29-entry landmark list (indices 0–28) of a fully visible standing
pose: all eight planar angles are well-defined, all depths are zero. -/
def lmFull : List Landmark :=
  [⟨0, 0, 0⟩, ⟨0, 0, 0⟩, ⟨0, 0, 0⟩, ⟨0, 0, 0⟩, ⟨0, 0, 0⟩, ⟨0, 0, 0⟩,
    ⟨0, 0, 0⟩, ⟨0, 0, 0⟩, ⟨0, 0, 0⟩, ⟨0, 0, 0⟩, ⟨0, 0, 0⟩,
    ⟨3/5, 3/10, 0⟩, ⟨2/5, 3/10, 0⟩,
    ⟨7/10, 2/5, 0⟩, ⟨3/10, 2/5, 0⟩,
    ⟨4/5, 1/2, 0⟩, ⟨1/5, 1/2, 0⟩,
    ⟨0, 0, 0⟩, ⟨0, 0, 0⟩, ⟨0, 0, 0⟩, ⟨0, 0, 0⟩, ⟨0, 0, 0⟩, ⟨0, 0, 0⟩,
    ⟨3/5, 3/5, 0⟩, ⟨2/5, 3/5, 0⟩,
    ⟨3/5, 3/4, 0⟩, ⟨2/5, 3/4, 0⟩,
    ⟨3/5, 9/10, 0⟩, ⟨2/5, 9/10, 0⟩]

lemma truncQ_intCast (n : ℤ) : truncQ ((n : ℚ)) = n := by
  unfold truncQ
  split
  · exact Int.floor_intCast n
  · exact Int.ceil_intCast n

lemma pixel_eval (x y z : ℚ) (w h px py : ℤ)
    (hx : x * (w : ℚ) = (px : ℚ)) (hy : y * (h : ℚ) = (py : ℚ)) :
    pixel ⟨x, y, z⟩ w h = (px, py) := by
  unfold pixel
  rw [hx, hy, truncQ_intCast, truncQ_intCast]

lemma get_point_eval {lm : List Landmark} {i : ℕ} {x y z : ℚ}
    (hg : lm.get? i = some ⟨x, y, z⟩) (w h px py : ℤ)
    (hx : x * (w : ℚ) = (px : ℚ)) (hy : y * (h : ℚ) = (py : ℚ)) :
    get_point lm i w h = some (px, py) := by
  unfold get_point
  rw [hg]
  dsimp only
  rw [pixel_eval x y z w h px py hx hy]

lemma armFull (s : ServoState) :
    calculate_arm_servos lmFull 100 100 s =
      armEmit s (vector_2d_angle (-40, 0) (-10, -10))
        (vector_2d_angle (10, 10) (10, 10))
        (vector_2d_angle (40, 0) (10, -10))
        (vector_2d_angle (-10, 10) (-10, 10)) := by
  unfold calculate_arm_servos
  rw [get_point_eval (show lmFull.get? 11 = some ⟨3/5, 3/10, 0⟩ from rfl)
      100 100 60 30 (by norm_num) (by norm_num),
    get_point_eval (show lmFull.get? 12 = some ⟨2/5, 3/10, 0⟩ from rfl)
      100 100 40 30 (by norm_num) (by norm_num),
    get_point_eval (show lmFull.get? 13 = some ⟨7/10, 2/5, 0⟩ from rfl)
      100 100 70 40 (by norm_num) (by norm_num),
    get_point_eval (show lmFull.get? 14 = some ⟨3/10, 2/5, 0⟩ from rfl)
      100 100 30 40 (by norm_num) (by norm_num),
    get_point_eval (show lmFull.get? 15 = some ⟨4/5, 1/2, 0⟩ from rfl)
      100 100 80 50 (by norm_num) (by norm_num),
    get_point_eval (show lmFull.get? 16 = some ⟨1/5, 1/2, 0⟩ from rfl)
      100 100 20 50 (by norm_num) (by norm_num)]
  norm_num [vsub]

lemma fwdFull (s : ServoState) :
    calculate_shoulder_forward_servos lmFull 100 100 s = fwdEmit s 0 0 := by
  unfold calculate_shoulder_forward_servos
  rw [show lmFull.get? 11 = some ⟨3/5, 3/10, 0⟩ from rfl,
    show lmFull.get? 12 = some ⟨2/5, 3/10, 0⟩ from rfl,
    show lmFull.get? 15 = some ⟨4/5, 1/2, 0⟩ from rfl,
    show lmFull.get? 16 = some ⟨1/5, 1/2, 0⟩ from rfl]
  norm_num

lemma hipFull (s : ServoState) :
    calculate_hip_servos lmFull 100 100 s =
      hipEmit s (vector_2d_angle (0, -100) (0, -15))
        (vector_2d_angle (0, -100) (0, -15)) 0 0 := by
  unfold calculate_hip_servos
  rw [show lmFull.get? 23 = some ⟨3/5, 3/5, 0⟩ from rfl,
    show lmFull.get? 24 = some ⟨2/5, 3/5, 0⟩ from rfl,
    show lmFull.get? 25 = some ⟨3/5, 3/4, 0⟩ from rfl,
    show lmFull.get? 26 = some ⟨2/5, 3/4, 0⟩ from rfl]
  dsimp only
  rw [pixel_eval (3/5) (3/5) 0 100 100 60 60 (by norm_num) (by norm_num),
    pixel_eval (2/5) (3/5) 0 100 100 40 60 (by norm_num) (by norm_num),
    pixel_eval (3/5) (3/4) 0 100 100 60 75 (by norm_num) (by norm_num),
    pixel_eval (2/5) (3/4) 0 100 100 40 75 (by norm_num) (by norm_num)]
  norm_num [vsub]

lemma kneeFull (s : ServoState) :
    calculate_knee_servos lmFull 100 100 s =
      kneeEmit s (vector_2d_angle (0, -15) (0, 15))
        (vector_2d_angle (0, -15) (0, 15)) := by
  unfold calculate_knee_servos
  rw [get_point_eval (show lmFull.get? 23 = some ⟨3/5, 3/5, 0⟩ from rfl)
      100 100 60 60 (by norm_num) (by norm_num),
    get_point_eval (show lmFull.get? 24 = some ⟨2/5, 3/5, 0⟩ from rfl)
      100 100 40 60 (by norm_num) (by norm_num),
    get_point_eval (show lmFull.get? 25 = some ⟨3/5, 3/4, 0⟩ from rfl)
      100 100 60 75 (by norm_num) (by norm_num),
    get_point_eval (show lmFull.get? 26 = some ⟨2/5, 3/4, 0⟩ from rfl)
      100 100 40 75 (by norm_num) (by norm_num),
    get_point_eval (show lmFull.get? 27 = some ⟨3/5, 9/10, 0⟩ from rfl)
      100 100 60 90 (by norm_num) (by norm_num),
    get_point_eval (show lmFull.get? 28 = some ⟨2/5, 9/10, 0⟩ from rfl)
      100 100 40 90 (by norm_num) (by norm_num)]
  norm_num [vsub]

/-! ### Claim C5: tracked actuator sets -/

/-- C5 (amended): in every frame and from any state, the emitted
actuator ids form a subset of the current mode's tracked set —
`arms_only` tracks 6 DOF (15, 14, 7, 6, 16, 8), `full_body` tracks 12
(adding 4, 12, 3, 11, 2, 10); no id outside the set is ever emitted. -/
theorem c5_tracked_subset (fb : Bool) (lm : List Landmark) (w h : ℤ)
    (s : ServoState) :
    ((outList (calculate_servo_commands fb lm w h s).1).all
      fun c => (trackedIds fb).contains c.servo_id) = true := by
  by_cases hlen : lm.length ≤ 16
  · rw [top_fail fb lm w h s hlen]
    rfl
  push_neg at hlen
  obtain ⟨a1, a2, a3, a4, harm⟩ := arm_eq_emit lm w h (by omega)
  obtain ⟨ls, rs, lw, rw', _, _, _, _, hfwd⟩ := fwd_eq_emit lm w h (by omega)
  cases fb with
  | false =>
    rw [top_false lm w h s a1 a2 a3 a4 _ _ harm hfwd]
    simp only [outList]
    rw [List.all_eq_true]
    intro c hc
    rcases List.mem_append.mp hc with hm | hm
    · rcases armEmit_ids s a1 a2 a3 a4 c hm with h | h | h | h <;> rw [h] <;> rfl
    · rcases fwdEmit_ids _ _ _ c hm with h | h <;> rw [h] <;> rfl
  | true =>
    by_cases hhiplen : lm.length ≤ 26
    · rw [top_true_hipfail lm w h s a1 a2 a3 a4 _ _ harm hfwd
        (fun u => hip_fail lm w h u hhiplen)]
      rfl
    push_neg at hhiplen
    obtain ⟨b1, b2, hlz, hrz, hhip⟩ := hip_eq_emit lm w h (by omega)
    by_cases hkneelen : lm.length ≤ 28
    · rw [top_true_kneefail lm w h s a1 a2 a3 a4 _ _ b1 b2 hlz hrz harm hfwd hhip
        (fun u => knee_fail lm w h u hkneelen)]
      rfl
    push_neg at hkneelen
    obtain ⟨k1, k2, hknee⟩ := knee_eq_emit lm w h (by omega)
    rw [top_true lm w h s a1 a2 a3 a4 _ _ b1 b2 hlz hrz k1 k2 harm hfwd hhip hknee]
    simp only [outList]
    rw [List.all_eq_true]
    intro c hc
    rcases List.mem_append.mp hc with hc3 | hm
    · rcases List.mem_append.mp hc3 with hc2 | hm
      · rcases List.mem_append.mp hc2 with hm | hm
        · rcases armEmit_ids s a1 a2 a3 a4 c hm with h | h | h | h <;> rw [h] <;> rfl
        · rcases fwdEmit_ids _ _ _ c hm with h | h <;> rw [h] <;> rfl
      · rcases hipEmit_ids _ _ _ _ _ c hm with h | h | h | h <;> rw [h] <;> rfl
    · rcases kneeEmit_ids _ _ _ c hm with h | h <;> rw [h] <;> rfl

/-- C5 counterexample: a fully visible `full_body` frame emits 12
distinct tracked actuators in one output — more than the 10 the claim
allows. -/
theorem c5_counterexample :
    ((calculate_servo_commands true lmFull 100 100 []).1.map
        (Option.map (List.map ServoCommand.servo_id)))
      = some (some [15, 14, 7, 6, 16, 8, 4, 12, 3, 11, 2, 10])
    ∧ ([15, 14, 7, 6, 16, 8, 4, 12, 3, 11, 2, 10] : List ℤ).length = 12
    ∧ (10 : ℕ) < 12
    ∧ ([15, 14, 7, 6, 16, 8, 4, 12, 3, 11, 2, 10] : List ℤ).Nodup := by
  refine ⟨?_, by decide, by decide, by decide⟩
  obtain ⟨α1, hα1⟩ := vector_2d_angle_isSome (-40, 0) (-10, -10) (by decide) (by decide)
  obtain ⟨α2, hα2⟩ := vector_2d_angle_isSome (10, 10) (10, 10) (by decide) (by decide)
  obtain ⟨α3, hα3⟩ := vector_2d_angle_isSome (40, 0) (10, -10) (by decide) (by decide)
  obtain ⟨α4, hα4⟩ := vector_2d_angle_isSome (-10, 10) (-10, 10) (by decide) (by decide)
  obtain ⟨β, hβ⟩ := vector_2d_angle_isSome (0, -100) (0, -15) (by decide) (by decide)
  obtain ⟨γ, hγ⟩ := vector_2d_angle_isSome (0, -15) (0, 15) (by decide) (by decide)
  rw [top_true lmFull 100 100 [] (some α1) (some α2) (some α3) (some α4) 0 0
    (some β) (some β) 0 0 (some γ) (some γ)
    (fun u => by rw [armFull u, hα1, hα2, hα3, hα4])
    (fun u => fwdFull u)
    (fun u => by rw [hipFull u, hβ])
    (fun u => by rw [kneeFull u, hγ])]
  simp [armEmit, fwdEmit, hipEmit, kneeEmit]

/-! ### Claim C2: missing landmarks raise, they are not skipped -/

/-- C2 counterexample: on a frame whose landmark list is empty (every
required index absent) the engine does not return a partial or empty
command set — the landmark access raises, modelled by a `none` result. -/
theorem c2_counterexample :
    (calculate_servo_commands true [] 640 480 []).1 = none := by
  rw [top_fail true [] 640 480 [] (by decide)]

/-- C2 (amended): when a required landmark index is absent from the
frame (any arm index 11–16 missing, i.e. fewer than 17 landmarks), the
per-frame processing raises — no joint is skipped and no command set is
returned — and the smoothing state is left as it was.  Non-fatal
skipping applies only to degenerate geometry, not to missing indices. -/
theorem c2_missing_landmark_raises (fb : Bool) (lm : List Landmark)
    (w h : ℤ) (s : ServoState) (hlen : lm.length ≤ 16) :
    calculate_servo_commands fb lm w h s = (none, s) :=
  top_fail fb lm w h s hlen

/-- C2 witness: the amended claim instantiated at the empty frame. -/
theorem c2_missing_landmark_raises_witness :
    ([] : List Landmark).length ≤ 16
    ∧ calculate_servo_commands true [] 640 480 [] = (none, []) :=
  ⟨by decide, c2_missing_landmark_raises true [] 640 480 [] (by decide)⟩

/-! ### Locating commands in a frame's output -/

lemma find?_append_isSome {p : ServoCommand → Bool} {l1 l2 : List ServoCommand} :
    (((l1 ++ l2).find? p)).isSome = ((l1.find? p).isSome || (l2.find? p).isSome) := by
  rw [List.find?_append]
  cases l1.find? p <;> simp

lemma armEmit_find_ne (s : ServoState) (a1 a2 a3 a4 : Option ℤ) (id : ℤ)
    (h15 : id ≠ 15) (h14 : id ≠ 14) (h7 : id ≠ 7) (h6 : id ≠ 6) :
    ((armEmit s a1 a2 a3 a4).1.getD []).find? (fun c => c.servo_id == id) = none := by
  rw [List.find?_eq_none]
  intro x hx
  rcases armEmit_ids s a1 a2 a3 a4 x hx with h | h | h | h <;>
    simp only [h, beq_iff_eq] <;> omega

lemma fwdEmit_find16 (u : ServoState) (lz rz : ℚ) :
    (((fwdEmit u lz rz).1.getD []).find? (fun c => c.servo_id == 16)).isSome = true := by
  simp [fwdEmit, List.find?]

lemma fwdEmit_find8 (u : ServoState) (lz rz : ℚ) :
    ((fwdEmit u lz rz).1.getD []).find? (fun c => c.servo_id == 8) =
      some ⟨8, (smooth_servo
          (smooth_servo u 16 (clamp_servo (truncQ (val_map lz (-(3/10)) (3/10) 500 125)))).2
          8 (clamp_servo (truncQ (val_map rz (-(3/10)) (3/10) 500 900)))).1,
        "L_shoulder_fwd"⟩ := by
  simp [fwdEmit, List.find?]

lemma fwdEmit_find_ne (u : ServoState) (lz rz : ℚ) (id : ℤ)
    (h16 : id ≠ 16) (h8 : id ≠ 8) :
    ((fwdEmit u lz rz).1.getD []).find? (fun c => c.servo_id == id) = none := by
  rw [List.find?_eq_none]
  intro x hx
  rcases fwdEmit_ids u lz rz x hx with h | h <;>
    simp only [h, beq_iff_eq] <;> omega

lemma hipEmit_find3 (u : ServoState) (b1 b2 : Option ℤ) (hlz hrz : ℚ) :
    (((hipEmit u b1 b2 hlz hrz).1.getD []).find?
      (fun c => c.servo_id == 3)).isSome = true := by
  cases b1 <;> cases b2 <;> simp [hipEmit, List.find?]

lemma hipEmit_find11 (u : ServoState) (b1 b2 : Option ℤ) (hlz hrz : ℚ) :
    (((hipEmit u b1 b2 hlz hrz).1.getD []).find?
      (fun c => c.servo_id == 11)).isSome = true := by
  cases b1 <;> cases b2 <;> simp [hipEmit, List.find?]

/-! ### Claim C10: depth-difference joints have no omission path -/

/-- C10: on any frame with a fully detected pose (all landmark indices
0–28 present), the depth-difference commands are always present: the
shoulder-forward actuators 16 and 8 in every mode, and additionally the
hip-front actuators 3 and 11 in `full_body` mode — a depth difference,
unlike a planar angle, can never be undefined. -/
theorem c10_depth_joints_present (fb : Bool) (lm : List Landmark) (w h : ℤ)
    (s : ServoState) (hlen : 29 ≤ lm.length) :
    (findCmd 16 (calculate_servo_commands fb lm w h s).1).isSome = true
    ∧ (findCmd 8 (calculate_servo_commands fb lm w h s).1).isSome = true
    ∧ (fb = true →
        (findCmd 3 (calculate_servo_commands fb lm w h s).1).isSome = true
        ∧ (findCmd 11 (calculate_servo_commands fb lm w h s).1).isSome = true) := by
  obtain ⟨a1, a2, a3, a4, harm⟩ := arm_eq_emit lm w h (by omega)
  obtain ⟨ls, rs, lw, rw', _, _, _, _, hfwd⟩ := fwd_eq_emit lm w h (by omega)
  cases fb with
  | false =>
    rw [top_false lm w h s a1 a2 a3 a4 _ _ harm hfwd]
    refine ⟨?_, ?_, by simp⟩
    · simp only [findCmd, find?_append_isSome,
        armEmit_find_ne s a1 a2 a3 a4 16 (by decide) (by decide) (by decide) (by decide),
        fwdEmit_find16]
      simp
    · simp only [findCmd, find?_append_isSome,
        armEmit_find_ne s a1 a2 a3 a4 8 (by decide) (by decide) (by decide) (by decide),
        fwdEmit_find8]
      simp
  | true =>
    obtain ⟨b1, b2, hlz, hrz, hhip⟩ := hip_eq_emit lm w h (by omega)
    obtain ⟨k1, k2, hknee⟩ := knee_eq_emit lm w h (by omega)
    rw [top_true lm w h s a1 a2 a3 a4 _ _ b1 b2 hlz hrz k1 k2 harm hfwd hhip hknee]
    refine ⟨?_, ?_, fun _ => ⟨?_, ?_⟩⟩ <;>
      simp only [findCmd, find?_append_isSome] <;>
      simp [armEmit_find_ne s a1 a2 a3 a4 16 (by decide) (by decide) (by decide) (by decide),
        armEmit_find_ne s a1 a2 a3 a4 8 (by decide) (by decide) (by decide) (by decide),
        armEmit_find_ne s a1 a2 a3 a4 3 (by decide) (by decide) (by decide) (by decide),
        armEmit_find_ne s a1 a2 a3 a4 11 (by decide) (by decide) (by decide) (by decide),
        fwdEmit_find16, fwdEmit_find8, hipEmit_find3, hipEmit_find11]

/-- C10 witness: the fully visible concrete frame in `full_body` mode
carries commands for actuators 16, 8, 3 and 11. -/
theorem c10_depth_joints_present_witness :
    (findCmd 16 (calculate_servo_commands true lmFull 100 100 []).1).isSome = true
    ∧ (findCmd 8 (calculate_servo_commands true lmFull 100 100 []).1).isSome = true
    ∧ (findCmd 3 (calculate_servo_commands true lmFull 100 100 []).1).isSome = true
    ∧ (findCmd 11 (calculate_servo_commands true lmFull 100 100 []).1).isSome = true := by
  have H := c10_depth_joints_present true lmFull 100 100 [] (by decide)
  exact ⟨H.1, H.2.1, (H.2.2 rfl).1, (H.2.2 rfl).2⟩

/-! ### Claim C3: degenerate geometry omits commands — but arm
commands are omitted all-or-nothing -/

/-- Like `lmFull` restricted to the arm indices (17 entries), except the
left wrist (index 15) sits exactly on the left elbow (index 13), which
makes the left-elbow angle's second vector zero-magnitude; the other
three arm angles stay well-defined. -/
def lmC3 : List Landmark :=
  [⟨0, 0, 0⟩, ⟨0, 0, 0⟩, ⟨0, 0, 0⟩, ⟨0, 0, 0⟩, ⟨0, 0, 0⟩, ⟨0, 0, 0⟩,
    ⟨0, 0, 0⟩, ⟨0, 0, 0⟩, ⟨0, 0, 0⟩, ⟨0, 0, 0⟩, ⟨0, 0, 0⟩,
    ⟨3/5, 3/10, 0⟩, ⟨2/5, 3/10, 0⟩,
    ⟨7/10, 2/5, 0⟩, ⟨3/10, 2/5, 0⟩,
    ⟨7/10, 2/5, 0⟩, ⟨1/5, 1/2, 0⟩]

lemma armC3 (s : ServoState) :
    calculate_arm_servos lmC3 100 100 s =
      armEmit s (vector_2d_angle (-40, 0) (-10, -10))
        (vector_2d_angle (10, 10) (0, 0))
        (vector_2d_angle (40, 0) (10, -10))
        (vector_2d_angle (-10, 10) (-10, 10)) := by
  unfold calculate_arm_servos
  rw [get_point_eval (show lmC3.get? 11 = some ⟨3/5, 3/10, 0⟩ from rfl)
      100 100 60 30 (by norm_num) (by norm_num),
    get_point_eval (show lmC3.get? 12 = some ⟨2/5, 3/10, 0⟩ from rfl)
      100 100 40 30 (by norm_num) (by norm_num),
    get_point_eval (show lmC3.get? 13 = some ⟨7/10, 2/5, 0⟩ from rfl)
      100 100 70 40 (by norm_num) (by norm_num),
    get_point_eval (show lmC3.get? 14 = some ⟨3/10, 2/5, 0⟩ from rfl)
      100 100 30 40 (by norm_num) (by norm_num),
    get_point_eval (show lmC3.get? 15 = some ⟨7/10, 2/5, 0⟩ from rfl)
      100 100 70 40 (by norm_num) (by norm_num),
    get_point_eval (show lmC3.get? 16 = some ⟨1/5, 1/2, 0⟩ from rfl)
      100 100 20 50 (by norm_num) (by norm_num)]
  norm_num [vsub]

lemma fwdC3 (s : ServoState) :
    calculate_shoulder_forward_servos lmC3 100 100 s = fwdEmit s 0 0 := by
  unfold calculate_shoulder_forward_servos
  rw [show lmC3.get? 11 = some ⟨3/5, 3/10, 0⟩ from rfl,
    show lmC3.get? 12 = some ⟨2/5, 3/10, 0⟩ from rfl,
    show lmC3.get? 15 = some ⟨7/10, 2/5, 0⟩ from rfl,
    show lmC3.get? 16 = some ⟨1/5, 1/2, 0⟩ from rfl]
  norm_num

/-- C3 counterexample: in the frame `lmC3` only the left-elbow joint's
angle input is degenerate (the servo-15 joint's angle is defined), yet
the output carries no command for servo 15 either — the whole arm block
is omitted, not just the degenerate joint's command.  The two commands
that remain are the depth-difference shoulder-forward ones. -/
theorem c3_counterexample :
    (vector_2d_angle (-40, 0) (-10, -10)).isSome = true
    ∧ vector_2d_angle (10, 10) (0, 0) = none
    ∧ (calculate_servo_commands false lmC3 100 100 []).1 =
        some (some [⟨16, 312, "R_shoulder_fwd"⟩, ⟨8, 700, "L_shoulder_fwd"⟩]) := by
  obtain ⟨α1, hα1⟩ := vector_2d_angle_isSome (-40, 0) (-10, -10) (by decide) (by decide)
  obtain ⟨α3, hα3⟩ := vector_2d_angle_isSome (40, 0) (10, -10) (by decide) (by decide)
  obtain ⟨α4, hα4⟩ := vector_2d_angle_isSome (-10, 10) (-10, 10) (by decide) (by decide)
  have hnone : vector_2d_angle (10, 10) (0, 0) = none :=
    (vector_2d_angle_eq_none_iff _ _).mpr (Or.inr rfl)
  refine ⟨by rw [hα1]; rfl, hnone, ?_⟩
  rw [top_false lmC3 100 100 [] (some α1) none (some α3) (some α4) 0 0
    (fun u => by rw [armC3 u, hα1, hα3, hα4, hnone])
    (fun u => fwdC3 u)]
  have h16v : clamp_servo (truncQ (val_map 0 (-(3/10)) (3/10) 500 125)) = 312 := by
    have hval : val_map 0 (-(3/10)) (3/10) 500 125 = 625/2 := by
      norm_num [val_map]
    rw [hval]
    unfold truncQ
    rw [if_pos (by norm_num)]
    rw [show ⌊(625/2 : ℚ)⌋ = 312 from by
      rw [Int.floor_eq_iff]
      norm_num]
    decide
  have h8v : clamp_servo (truncQ (val_map 0 (-(3/10)) (3/10) 500 900)) = 700 := by
    have hval : val_map 0 (-(3/10)) (3/10) 500 900 = (700 : ℚ) := by
      norm_num [val_map]
    rw [hval, show (700 : ℚ) = ((700 : ℤ) : ℚ) from by norm_num, truncQ_intCast]
    decide
  have hlk : List.lookup (8 : ℤ) [((16 : ℤ), (312 : ℤ))] = none := by decide
  simp [armEmit, fwdEmit, h16v, h8v, smooth_servo, dictSet, hlk]

lemma vsub_refl (p : ℤ × ℤ) : vsub p p = (0, 0) := by
  obtain ⟨a, b⟩ := p
  simp [vsub]

lemma armEmit_none₂ (s : ServoState) (a1 a3 a4 : Option ℤ) :
    armEmit s a1 none a3 a4 = (some [], s) := by
  cases a1 <;> cases a3 <;> cases a4 <;> rfl

lemma arm_eq_emit_px (lm : List Landmark) (w h : ℤ) (hlen : 17 ≤ lm.length) :
    ∃ p11 p12 p13 p14 p15 p16 : ℤ × ℤ,
      get_point lm 11 w h = some p11 ∧ get_point lm 12 w h = some p12 ∧
      get_point lm 13 w h = some p13 ∧ get_point lm 14 w h = some p14 ∧
      get_point lm 15 w h = some p15 ∧ get_point lm 16 w h = some p16 ∧
      ∀ s : ServoState, calculate_arm_servos lm w h s =
        armEmit s (vector_2d_angle (vsub p11 (w, p11.2)) (vsub p11 p13))
          (vector_2d_angle (vsub p13 p11) (vsub p15 p13))
          (vector_2d_angle (vsub p12 (0, p12.2)) (vsub p12 p14))
          (vector_2d_angle (vsub p14 p12) (vsub p16 p14)) := by
  obtain ⟨x11, h11⟩ := get?_some_of_lt lm 11 (by omega)
  obtain ⟨x12, h12⟩ := get?_some_of_lt lm 12 (by omega)
  obtain ⟨x13, h13⟩ := get?_some_of_lt lm 13 (by omega)
  obtain ⟨x14, h14⟩ := get?_some_of_lt lm 14 (by omega)
  obtain ⟨x15, h15⟩ := get?_some_of_lt lm 15 (by omega)
  obtain ⟨x16, h16⟩ := get?_some_of_lt lm 16 (by omega)
  refine ⟨pixel x11 w h, pixel x12 w h, pixel x13 w h, pixel x14 w h,
    pixel x15 w h, pixel x16 w h,
    get_point_eq_some w h h11, get_point_eq_some w h h12,
    get_point_eq_some w h h13, get_point_eq_some w h h14,
    get_point_eq_some w h h15, get_point_eq_some w h h16, fun s => ?_⟩
  unfold calculate_arm_servos
  rw [get_point_eq_some w h h11, get_point_eq_some w h h12,
    get_point_eq_some w h h13, get_point_eq_some w h h14,
    get_point_eq_some w h h15, get_point_eq_some w h h16]

/-- C3 (amended): a degenerate (zero-magnitude) angle input does omit
the affected joint's command, and no zero or default position is
substituted — but for the four arm joints the omission is collective:
whenever the left wrist and left elbow land on the same pixel (so the
left-elbow angle is degenerate), the frame's output contains no command
for any of the arm-block actuators 15, 14, 7, 6 (hip-side and knee
joints, by contrast, are omitted per joint). -/
theorem c3_degenerate_omits_arm_block (fb : Bool) (lm : List Landmark)
    (w h : ℤ) (s : ServoState)
    (hdeg : get_point lm 15 w h = get_point lm 13 w h) :
    ((outList (calculate_servo_commands fb lm w h s).1).all fun c =>
      !(c.servo_id == 15 || c.servo_id == 14 || c.servo_id == 7 ||
        c.servo_id == 6)) = true := by
  by_cases hlen : lm.length ≤ 16
  · rw [top_fail fb lm w h s hlen]
    rfl
  push_neg at hlen
  obtain ⟨p11, p12, p13, p14, p15, p16, g11, g12, g13, g14, g15, g16, harm⟩ :=
    arm_eq_emit_px lm w h (by omega)
  have hp : p15 = p13 := by
    rw [g15, g13] at hdeg
    exact Option.some.inj hdeg
  have harm' : ∀ u, calculate_arm_servos lm w h u = (some [], u) := by
    intro u
    rw [harm u, hp, vsub_refl,
      show vector_2d_angle (vsub p13 p11) (0, 0) = none from
        (vector_2d_angle_eq_none_iff _ _).mpr (Or.inr rfl),
      armEmit_none₂]
  have harm'' : ∀ u, calculate_arm_servos lm w h u = armEmit u none none none none := by
    intro u
    rw [harm' u]
    rfl
  obtain ⟨ls, rs, lw, rw', _, _, _, _, hfwd⟩ := fwd_eq_emit lm w h (by omega)
  cases fb with
  | false =>
    rw [top_false lm w h s none none none none _ _ harm'' hfwd]
    simp only [outList]
    rw [List.all_eq_true]
    intro c hc
    rcases List.mem_append.mp hc with hm | hm
    · simp [armEmit] at hm
    · rcases fwdEmit_ids _ _ _ c hm with hid | hid <;> rw [hid] <;> rfl
  | true =>
    by_cases hhiplen : lm.length ≤ 26
    · rw [top_true_hipfail lm w h s none none none none _ _ harm'' hfwd
        (fun u => hip_fail lm w h u hhiplen)]
      rfl
    push_neg at hhiplen
    obtain ⟨b1, b2, hlz, hrz, hhip⟩ := hip_eq_emit lm w h (by omega)
    by_cases hkneelen : lm.length ≤ 28
    · rw [top_true_kneefail lm w h s none none none none _ _ b1 b2 hlz hrz
        harm'' hfwd hhip (fun u => knee_fail lm w h u hkneelen)]
      rfl
    push_neg at hkneelen
    obtain ⟨k1, k2, hknee⟩ := knee_eq_emit lm w h (by omega)
    rw [top_true lm w h s none none none none _ _ b1 b2 hlz hrz k1 k2
      harm'' hfwd hhip hknee]
    simp only [outList]
    rw [List.all_eq_true]
    intro c hc
    rcases List.mem_append.mp hc with hc3 | hm
    · rcases List.mem_append.mp hc3 with hc2 | hm
      · rcases List.mem_append.mp hc2 with hm | hm
        · simp [armEmit] at hm
        · rcases fwdEmit_ids _ _ _ c hm with hid | hid <;> rw [hid] <;> rfl
      · rcases hipEmit_ids _ _ _ _ _ c hm with hid | hid | hid | hid <;>
          rw [hid] <;> rfl
    · rcases kneeEmit_ids _ _ _ c hm with hid | hid <;> rw [hid] <;> rfl

/-- C3 witness: the amended claim instantiated at the concrete frame
`lmC3`, whose left wrist and left elbow share pixel `(70, 40)`. -/
theorem c3_degenerate_omits_arm_block_witness :
    get_point lmC3 15 100 100 = get_point lmC3 13 100 100
    ∧ ((outList (calculate_servo_commands false lmC3 100 100 []).1).all fun c =>
        !(c.servo_id == 15 || c.servo_id == 14 || c.servo_id == 7 ||
          c.servo_id == 6)) = true := by
  have hdeg : get_point lmC3 15 100 100 = get_point lmC3 13 100 100 := by
    rw [get_point_eval (show lmC3.get? 15 = some ⟨7/10, 2/5, 0⟩ from rfl)
        100 100 70 40 (by norm_num) (by norm_num),
      get_point_eval (show lmC3.get? 13 = some ⟨7/10, 2/5, 0⟩ from rfl)
        100 100 70 40 (by norm_num) (by norm_num)]
  exact ⟨hdeg, c3_degenerate_omits_arm_block false lmC3 100 100 [] hdeg⟩

/-! ### Claim C6: mirror noninterference -/

lemma get?_set_ne' {α : Type} (l : List α) (i j : ℕ) (a : α) (hij : i ≠ j) :
    (l.set i a).get? j = l.get? j := by
  rw [List.get?_eq_getElem?, List.get?_eq_getElem?, List.getElem?_set_ne hij]

/-- C6 (amended): for two frames that differ only in the sensor's
left-shoulder landmark (index 11), processed in the same mode from the
same state, the command for the robot's left-shoulder-forward actuator
(servo 8) is identical in both runs — same presence and same position. -/
theorem c6_mirror_servo8 (fb : Bool) (lm : List Landmark) (b : Landmark)
    (w h : ℤ) (s : ServoState) :
    findCmd 8 (calculate_servo_commands fb (lm.set 11 b) w h s).1 =
      findCmd 8 (calculate_servo_commands fb lm w h s).1 := by
  have hL : (lm.set 11 b).length = lm.length := List.length_set lm 11 b
  by_cases hlen : lm.length ≤ 16
  · rw [top_fail fb (lm.set 11 b) w h s (by omega), top_fail fb lm w h s hlen]
  push_neg at hlen
  obtain ⟨a1, a2, a3, a4, harm⟩ := arm_eq_emit lm w h (by omega)
  obtain ⟨a1', a2', a3', a4', harm'⟩ := arm_eq_emit (lm.set 11 b) w h (by omega)
  obtain ⟨ls, rs, lw, rw', g11, g12, g15, g16, hfwd⟩ := fwd_eq_emit lm w h (by omega)
  obtain ⟨ls', rs', lw', rw'', g11', g12', g15', g16', hfwd'⟩ :=
    fwd_eq_emit (lm.set 11 b) w h (by omega)
  have hrs : rs' = rs := by
    rw [get?_set_ne' lm 11 12 b (by decide), g12] at g12'
    exact (Option.some.inj g12').symm
  have hrw : rw'' = rw' := by
    rw [get?_set_ne' lm 11 16 b (by decide), g16] at g16'
    exact (Option.some.inj g16').symm
  rw [hrs, hrw] at hfwd'
  have hp8 : ∀ u u' : ServoState, u'.lookup 8 = u.lookup 8 →
      (smooth_servo (smooth_servo u' 16 (clamp_servo (truncQ
          (val_map (ls'.z - lw'.z) (-(3/10)) (3/10) 500 125)))).2 8
        (clamp_servo (truncQ (val_map (rs.z - rw'.z) (-(3/10)) (3/10) 500 900)))).1 =
      (smooth_servo (smooth_servo u 16 (clamp_servo (truncQ
          (val_map (ls.z - lw.z) (-(3/10)) (3/10) 500 125)))).2 8
        (clamp_servo (truncQ (val_map (rs.z - rw'.z) (-(3/10)) (3/10) 500 900)))).1 := by
    intro u u' hu
    apply smooth_fst_congr
    rw [smooth_lookup_ne _ _ (by decide : (8 : ℤ) ≠ 16),
      smooth_lookup_ne _ _ (by decide : (8 : ℤ) ≠ 16), hu]
  have hstate : ∀ u : ServoState,
      ((armEmit u a1' a2' a3' a4').2).lookup 8 = ((armEmit u a1 a2 a3 a4).2).lookup 8 := by
    intro u
    rw [armEmit_lookup_ne u a1' a2' a3' a4' (by decide) (by decide) (by decide) (by decide),
      armEmit_lookup_ne u a1 a2 a3 a4 (by decide) (by decide) (by decide) (by decide)]
  cases fb with
  | false =>
    rw [top_false (lm.set 11 b) w h s a1' a2' a3' a4' _ _ harm' hfwd',
      top_false lm w h s a1 a2 a3 a4 _ _ harm hfwd]
    simp only [findCmd, List.find?_append,
      armEmit_find_ne s a1' a2' a3' a4' 8 (by decide) (by decide) (by decide) (by decide),
      armEmit_find_ne s a1 a2 a3 a4 8 (by decide) (by decide) (by decide) (by decide),
      fwdEmit_find8, Option.none_or]
    rw [hp8 _ _ (hstate s)]
  | true =>
    by_cases hhiplen : lm.length ≤ 26
    · rw [top_true_hipfail (lm.set 11 b) w h s a1' a2' a3' a4' _ _ harm' hfwd'
        (fun u => hip_fail (lm.set 11 b) w h u (by omega)),
        top_true_hipfail lm w h s a1 a2 a3 a4 _ _ harm hfwd
        (fun u => hip_fail lm w h u hhiplen)]
    push_neg at hhiplen
    obtain ⟨b1, b2, hlz, hrz, hhip⟩ := hip_eq_emit lm w h (by omega)
    obtain ⟨b1', b2', hlz', hrz', hhip'⟩ := hip_eq_emit (lm.set 11 b) w h (by omega)
    by_cases hkneelen : lm.length ≤ 28
    · rw [top_true_kneefail (lm.set 11 b) w h s a1' a2' a3' a4' _ _ b1' b2' hlz' hrz'
        harm' hfwd' hhip' (fun u => knee_fail (lm.set 11 b) w h u (by omega)),
        top_true_kneefail lm w h s a1 a2 a3 a4 _ _ b1 b2 hlz hrz
        harm hfwd hhip (fun u => knee_fail lm w h u hkneelen)]
    push_neg at hkneelen
    obtain ⟨k1, k2, hknee⟩ := knee_eq_emit lm w h (by omega)
    obtain ⟨k1', k2', hknee'⟩ := knee_eq_emit (lm.set 11 b) w h (by omega)
    rw [top_true (lm.set 11 b) w h s a1' a2' a3' a4' _ _ b1' b2' hlz' hrz' k1' k2'
      harm' hfwd' hhip' hknee',
      top_true lm w h s a1 a2 a3 a4 _ _ b1 b2 hlz hrz k1 k2 harm hfwd hhip hknee]
    simp only [findCmd, List.find?_append,
      armEmit_find_ne s a1' a2' a3' a4' 8 (by decide) (by decide) (by decide) (by decide),
      armEmit_find_ne s a1 a2 a3 a4 8 (by decide) (by decide) (by decide) (by decide),
      fwdEmit_find8, Option.none_or, Option.or_some]
    rw [hp8 _ _ (hstate s)]

lemma armC6b (s : ServoState) :
    calculate_arm_servos (lmFull.set 11 ⟨7/10, 2/5, 0⟩) 100 100 s =
      armEmit s (vector_2d_angle (-30, 0) (0, 0))
        (vector_2d_angle (0, 0) (10, 10))
        (vector_2d_angle (40, 0) (10, -10))
        (vector_2d_angle (-10, 10) (-10, 10)) := by
  unfold calculate_arm_servos
  rw [get_point_eval (show (lmFull.set 11 ⟨7/10, 2/5, 0⟩).get? 11 =
        some ⟨7/10, 2/5, 0⟩ from rfl) 100 100 70 40 (by norm_num) (by norm_num),
    get_point_eval (show (lmFull.set 11 ⟨7/10, 2/5, 0⟩).get? 12 =
        some ⟨2/5, 3/10, 0⟩ from rfl) 100 100 40 30 (by norm_num) (by norm_num),
    get_point_eval (show (lmFull.set 11 ⟨7/10, 2/5, 0⟩).get? 13 =
        some ⟨7/10, 2/5, 0⟩ from rfl) 100 100 70 40 (by norm_num) (by norm_num),
    get_point_eval (show (lmFull.set 11 ⟨7/10, 2/5, 0⟩).get? 14 =
        some ⟨3/10, 2/5, 0⟩ from rfl) 100 100 30 40 (by norm_num) (by norm_num),
    get_point_eval (show (lmFull.set 11 ⟨7/10, 2/5, 0⟩).get? 15 =
        some ⟨4/5, 1/2, 0⟩ from rfl) 100 100 80 50 (by norm_num) (by norm_num),
    get_point_eval (show (lmFull.set 11 ⟨7/10, 2/5, 0⟩).get? 16 =
        some ⟨1/5, 1/2, 0⟩ from rfl) 100 100 20 50 (by norm_num) (by norm_num)]
  norm_num [vsub]

lemma fwdC6b (s : ServoState) :
    calculate_shoulder_forward_servos (lmFull.set 11 ⟨7/10, 2/5, 0⟩) 100 100 s =
      fwdEmit s 0 0 := by
  unfold calculate_shoulder_forward_servos
  rw [show (lmFull.set 11 ⟨7/10, 2/5, 0⟩).get? 11 = some ⟨7/10, 2/5, 0⟩ from rfl,
    show (lmFull.set 11 ⟨7/10, 2/5, 0⟩).get? 12 = some ⟨2/5, 3/10, 0⟩ from rfl,
    show (lmFull.set 11 ⟨7/10, 2/5, 0⟩).get? 15 = some ⟨4/5, 1/2, 0⟩ from rfl,
    show (lmFull.set 11 ⟨7/10, 2/5, 0⟩).get? 16 = some ⟨1/5, 1/2, 0⟩ from rfl]
  norm_num

/-- C6 counterexample: two frames that differ only in the sensor's
left-shoulder landmark (index 11) — `lmFull`, and `lmFull` with the
left shoulder moved onto the left elbow — do NOT leave the robot's
left-side shoulder actuator's command unchanged: in the first run a
command for servo 7 (left shoulder side) is present, in the second run
servo 7's command disappears entirely, because the degenerate
left-shoulder angle suppresses the whole all-or-nothing arm block. -/
theorem c6_counterexample :
    (findCmd 7 (calculate_servo_commands false lmFull 100 100 []).1).isSome = true
    ∧ findCmd 7 (calculate_servo_commands false
        (lmFull.set 11 ⟨7/10, 2/5, 0⟩) 100 100 []).1 = none := by
  constructor
  · obtain ⟨α1, hα1⟩ := vector_2d_angle_isSome (-40, 0) (-10, -10) (by decide) (by decide)
    obtain ⟨α2, hα2⟩ := vector_2d_angle_isSome (10, 10) (10, 10) (by decide) (by decide)
    obtain ⟨α3, hα3⟩ := vector_2d_angle_isSome (40, 0) (10, -10) (by decide) (by decide)
    obtain ⟨α4, hα4⟩ := vector_2d_angle_isSome (-10, 10) (-10, 10) (by decide) (by decide)
    rw [top_false lmFull 100 100 [] (some α1) (some α2) (some α3) (some α4) 0 0
      (fun u => by rw [armFull u, hα1, hα2, hα3, hα4])
      (fun u => fwdFull u)]
    simp [findCmd, armEmit, fwdEmit, List.find?]
  · obtain ⟨α3, hα3⟩ := vector_2d_angle_isSome (40, 0) (10, -10) (by decide) (by decide)
    obtain ⟨α4, hα4⟩ := vector_2d_angle_isSome (-10, 10) (-10, 10) (by decide) (by decide)
    have hn1 : vector_2d_angle (-30, 0) (0, 0) = none :=
      (vector_2d_angle_eq_none_iff _ _).mpr (Or.inr rfl)
    have hn2 : vector_2d_angle (0, 0) (10, 10) = none :=
      (vector_2d_angle_eq_none_iff _ _).mpr (Or.inl rfl)
    rw [top_false (lmFull.set 11 ⟨7/10, 2/5, 0⟩) 100 100 []
      none none (some α3) (some α4) 0 0
      (fun u => by rw [armC6b u, hn1, hn2, hα3, hα4])
      (fun u => fwdC6b u)]
    simp [findCmd, armEmit, fwdEmit, List.find?]
